import Mathlib

set_option maxRecDepth 8000

/-!
Verification development for the cmqttd MQTT / C-Bus bridge daemon
(source file cbus/daemon/cmqttd.py).

Python strings are modelled as lists of characters (`List Char`); the
Python string methods used by the daemon are modelled by the `py*`
helpers below.  Fallible Python code (functions that raise `ValueError`)
is modelled with `Option`.
-/

/-- Characters of a string literal, used to embed Python string constants. -/
def charsOf (s : String) : List Char := s.toList

/-- Python `str.upper` (the daemon only upper-cases ASCII payloads). -/
def pyUpper (l : List Char) : List Char := l.map Char.toUpper

/-- Python whitespace predicate used by `str.strip`. -/
def pySpace (c : Char) : Bool :=
  c == ' ' || c == Char.ofNat 9 || c == Char.ofNat 10 || c == Char.ofNat 13 ||
  c == Char.ofNat 11 || c == Char.ofNat 12

/-- Python `str.strip()`: drop whitespace from both ends. -/
def pyStrip (l : List Char) : List Char :=
  ((l.dropWhile pySpace).reverse.dropWhile pySpace).reverse

/-- Python `topic.startswith(p)`. -/
def pyStartswith (t p : List Char) : Bool := p.isPrefixOf t

/-- Python `topic.endswith(s)`. -/
def pyEndswith (t s : List Char) : Bool := s.isSuffixOf t

/-- Python `s.split(sep, maxsplit=1)[0]`: the segment before the first
separator (the whole string when the separator does not occur). -/
def pySplitHead (sep : Char) (l : List Char) : List Char :=
  l.takeWhile (fun c => c != sep)

/-- Python `str(n)` for a non-negative integer: decimal digits. -/
def pyStr (n : Nat) : List Char := Nat.toDigits 10 n

/-- Python `int(s)` restricted to the forms this program can accept:
whitespace is stripped and an optional leading plus sign is allowed
before a non-empty run of decimal digits.  A negative literal yields a
negative int in Python, which every caller in the daemon immediately
rejects through `check_ga`, so negative forms are folded into `none`
here; underscore digit grouping is likewise not modelled. -/
def pyInt? (l : List Char) : Option Nat :=
  let t1 := pyStrip l
  let t2 := match t1 with
    | [] => []
    | c :: r => if c == '+' then r else c :: r
  if !t2.isEmpty && t2.all Char.isDigit then
    some (t2.foldl (fun a c => 10 * a + (c.toNat - 48)) 0)
  else
    none

/-- Device kinds; the source represents them as the strings
`'light'`, `'light_non_dimmable'`, `'switch'`, `'binary_sensor'`,
`'ignore'` (constants `_DEVICE_TYPE_*`). -/
inductive DeviceType where
  | light
  | light_non_dimmable
  | switch
  | binary_sensor
  | ignore
deriving DecidableEq, Inhabited

/-- The `device_types` dict mapping a group address to a configured kind. -/
def DeviceTypes := Nat → Option DeviceType

/-- `get_device_type`: look up the kind of a group address, defaulting to
a dimmable light. -/
def get_device_type (ga : Nat) (dts : DeviceTypes) : DeviceType :=
  (dts ga).getD .light

/-- Source constant `_LIGHT_TOPIC_PREFIX`. -/
def LIGHT_TOPIC_PFX : List Char := charsOf "homeassistant/light/cbus_"

/-- Source constant `_SWITCH_TOPIC_PREFIX`. -/
def SWITCH_TOPIC_PFX : List Char := charsOf "homeassistant/switch/cbus_"

/-- Source constant `_BINSENSOR_TOPIC_PREFIX`. -/
def BINSENSOR_TOPIC_PFX : List Char := charsOf "homeassistant/binary_sensor/cbus_"

/-- Source constant `_TOPIC_SET_SUFFIX`. -/
def TOPIC_SET_SFX : List Char := charsOf "/set"

/-- Source constant `_TOPIC_CONF_SUFFIX`. -/
def TOPIC_CONF_SFX : List Char := charsOf "/config"

/-- Source constant `_TOPIC_STATE_SUFFIX`. -/
def TOPIC_STATE_SFX : List Char := charsOf "/state"

/-- Source constant `_META_TOPIC`. -/
def META_TOPIC : List Char := charsOf "homeassistant/binary_sensor/cbus_cmqttd"

/-- Modelled from the spec: `MIN_GROUP_ADDR` comes from `cbus.common`,
which is not among the given sources; spec section 3 states that a
GroupAddress is an integer in the closed range [MIN_GA, MAX_GA],
typically 1..255. -/
def MIN_GROUP_ADDR : Nat := 1

/-- Modelled from the spec: `MAX_GROUP_ADDR` from `cbus.common`
(see `MIN_GROUP_ADDR`). -/
def MAX_GROUP_ADDR : Nat := 255

/-- Modelled from the spec: `cbus.common.check_ga` validates the group
address range, raising `ValueError` outside it. -/
def check_ga (ga : Nat) : Bool :=
  decide (MIN_GROUP_ADDR ≤ ga) && decide (ga ≤ MAX_GROUP_ADDR)

/-- `ga_range()`: `range(MIN_GROUP_ADDR, MAX_GROUP_ADDR + 1)`. -/
def ga_range : List Nat :=
  List.range' MIN_GROUP_ADDR (MAX_GROUP_ADDR + 1 - MIN_GROUP_ADDR)

/-- The ordered list of topic heads tried by `get_topic_group_address`. -/
def topicPfxList : List (List Char) :=
  [LIGHT_TOPIC_PFX, SWITCH_TOPIC_PFX, BINSENSOR_TOPIC_PFX]

/-- `get_topic_group_address(topic)`: try each known topic head in order;
on a match (with the `/set` suffix) parse the integer segment after the
head and range-check it.  All `ValueError` exits (no head matches, a
non-numeric segment, an out-of-range address) are `none`. -/
def get_topic_group_address (topic : List Char) : Option Nat :=
  match topicPfxList.find?
      (fun p => pyStartswith topic p && pyEndswith topic TOPIC_SET_SFX) with
  | some p =>
    match pyInt? (pySplitHead '/' (topic.drop p.length)) with
    | some ga => if check_ga ga then some ga else none
    | none => none
  | none => none

/-- `set_topic(group_addr)`. -/
def set_topic (ga : Nat) : List Char := LIGHT_TOPIC_PFX ++ pyStr ga ++ TOPIC_SET_SFX

/-- `state_topic(group_addr)`. -/
def state_topic (ga : Nat) : List Char := LIGHT_TOPIC_PFX ++ pyStr ga ++ TOPIC_STATE_SFX

/-- `conf_topic(group_addr)`. -/
def conf_topic (ga : Nat) : List Char := LIGHT_TOPIC_PFX ++ pyStr ga ++ TOPIC_CONF_SFX

/-- `bin_sensor_state_topic(group_addr)`. -/
def bin_sensor_state_topic (ga : Nat) : List Char :=
  BINSENSOR_TOPIC_PFX ++ pyStr ga ++ TOPIC_STATE_SFX

/-- `bin_sensor_conf_topic(group_addr)`. -/
def bin_sensor_conf_topic (ga : Nat) : List Char :=
  BINSENSOR_TOPIC_PFX ++ pyStr ga ++ TOPIC_CONF_SFX

/-- The switch set topic `_SWITCH_TOPIC_PREFIX + str(ga) + _TOPIC_SET_SUFFIX`,
built inline in `on_connect` and `_publish_switch_config`. -/
def switch_set_topic (ga : Nat) : List Char :=
  SWITCH_TOPIC_PFX ++ pyStr ga ++ TOPIC_SET_SFX

/-- The binary-sensor set topic used nowhere by the daemon but accepted by
`get_topic_group_address`. -/
def bin_sensor_set_topic (ga : Nat) : List Char :=
  BINSENSOR_TOPIC_PFX ++ pyStr ga ++ TOPIC_SET_SFX

/-- `conf_topic_for_device(group_addr, device_type)`. -/
def conf_topic_for_device (ga : Nat) (dt : DeviceType) : List Char :=
  match dt with
  | .switch => SWITCH_TOPIC_PFX ++ pyStr ga ++ TOPIC_CONF_SFX
  | .binary_sensor => bin_sensor_conf_topic ga
  | _ => conf_topic ga

/-- `set_topic_for_device(group_addr, device_type)`: the source returns the
light set topic for every device type ("for simplicity, all device types
use the light set topic for commands"). -/
def set_topic_for_device (ga : Nat) (dt : DeviceType) : List Char :=
  match dt with
  | _ => set_topic ga

/-- `state_topic_for_device(group_addr, device_type)`. -/
def state_topic_for_device (ga : Nat) (dt : DeviceType) : List Char :=
  match dt with
  | .switch => SWITCH_TOPIC_PFX ++ pyStr ga ++ TOPIC_STATE_SFX
  | .binary_sensor => bin_sensor_state_topic ga
  | _ => state_topic ga

/-! ### Discovery publishing and `on_connect` (MqttClient) -/

/-- The fields of a Home-Assistant discovery document that the claims
refer to; the remaining fields of the JSON documents built by
`_publish_light_config`, `_publish_switch_config`,
`_publish_binary_sensor_config` and `publish_all_lights` (names, device
metadata, schema, color modes) are not modelled. -/
structure ConfigDoc where
  cmd_t : Option (List Char)
  stat_t : List Char
deriving DecidableEq

/-- MQTT client actions observable on the broker during `on_connect`. -/
inductive MqttAction where
  | subscribe (topics : List (List Char × Nat))
  | publishJson (topic : List Char) (doc : ConfigDoc) (qos : Nat) (retain : Bool)
deriving DecidableEq

/-- `MqttClient.publish`: serialises the payload as JSON and publishes it
at QoS 1 with the retain flag set. -/
def mqttPublishJson (topic : List Char) (doc : ConfigDoc) : MqttAction :=
  .publishJson topic doc 1 true

/-- `_publish_light_config(ga, name, dimmable)`: used for both dimmable
and non-dimmable lights; the dimmable flag only affects unmodelled
fields. -/
def publish_light_config (ga : Nat) (dimmable : Bool) : MqttAction :=
  mqttPublishJson (conf_topic ga)
    { cmd_t := some (set_topic ga), stat_t := state_topic ga }

/-- `_publish_switch_config(ga, name)`: note the advertised command topic
(`cmd_t`) is under the switch topic head. -/
def publish_switch_config (ga : Nat) : MqttAction :=
  mqttPublishJson (SWITCH_TOPIC_PFX ++ pyStr ga ++ TOPIC_CONF_SFX)
    { cmd_t := some (switch_set_topic ga),
      stat_t := SWITCH_TOPIC_PFX ++ pyStr ga ++ TOPIC_STATE_SFX }

/-- `_publish_binary_sensor_config(ga, name)`: read-only, no command
topic. -/
def publish_binary_sensor_config (ga : Nat) : MqttAction :=
  mqttPublishJson (bin_sensor_conf_topic ga)
    { cmd_t := none, stat_t := bin_sensor_state_topic ga }

/-- The meta-device config published first by `publish_all_lights`; its
`stat_t` abbreviates the topic with the `~` alias. -/
def meta_config_action : MqttAction :=
  mqttPublishJson (META_TOPIC ++ TOPIC_CONF_SFX)
    { cmd_t := none, stat_t := charsOf "~/state" }

/-- The discovery publishes made by `publish_all_lights` for one group
address, by device type (ignored devices are skipped completely). -/
def config_actions_for (ga : Nat) (dt : DeviceType) : List MqttAction :=
  match dt with
  | .light => [publish_light_config ga true]
  | .light_non_dimmable => [publish_light_config ga false]
  | .switch => [publish_switch_config ga]
  | .binary_sensor => [publish_binary_sensor_config ga]
  | .ignore => []

/-- `publish_all_lights(labels, device_types)`: the meta-device config
followed by one discovery config per non-ignored group address. -/
def publish_all_lights (dts : DeviceTypes) : List MqttAction :=
  meta_config_action ::
    ga_range.flatMap (fun ga => config_actions_for ga (get_device_type ga dts))

/-- The subscription list built by `on_connect`: for every group address
that is neither ignored nor a binary sensor, both the light set topic and
the switch set topic, each at QoS 2. -/
def on_connect_topics (dts : DeviceTypes) : List (List Char × Nat) :=
  ga_range.flatMap (fun ga =>
    let dt := get_device_type ga dts
    if dt = .ignore then []
    else if dt = .binary_sensor then []
    else [(set_topic ga, 2), (switch_set_topic ga, 2)])

/-- The MQTT actions of `on_connect` in program order: the client first
subscribes, then calls `publish_all_lights` (the call to
`start_queue_system` is modelled in the handler-state transition system
below). -/
def on_connect_actions (dts : DeviceTypes) : List MqttAction :=
  .subscribe (on_connect_topics dts) :: publish_all_lights dts

/-- Whether an MQTT action is a subscription. -/
def isSubscribeAction : MqttAction → Bool
  | .subscribe _ => true
  | .publishJson _ _ _ _ => false

/-- The topic of a publish action (subscriptions have no topic). -/
def actionTopic : MqttAction → List Char
  | .subscribe _ => []
  | .publishJson t _ _ _ => t

/-- The device-type table with no CLI configuration: every group address
defaults to a dimmable light. -/
def emptyDeviceTypes : DeviceTypes := fun _ => none

/-! ### Payload codec: `on_message` (MqttClient) -/

/-- The payload fields `on_message` reads from a parsed payload dict:
`state` (required), `brightness` (default 255), `transition`
(default 0). -/
structure InPayload where
  state : List Char
  brightness : Option Int
  transition : Option Int
deriving DecidableEq

/-- Lines 540-551 of `on_message`: the fallback taken when
`json.loads(msg.payload)` raises and the payload bytes decode as UTF-8.
The bytes are stripped and upper-cased and only the exact literals `ON`
and `OFF` synthesize a payload dict; anything else is an invalid payload,
logged at ERROR and dropped.  (The further branch for payloads that fail
UTF-8 decoding operates on the Python `repr` of the bytes and is not
modelled.) -/
def fallback_parse_payload (raw : List Char) : Option InPayload :=
  let s := pyUpper (pyStrip raw)
  if s = charsOf "ON" ∨ s = charsOf "OFF" then
    some { state := s, brightness := none, transition := none }
  else
    none

/-- Command kinds; the source represents them as the strings `'on'`,
`'off'`, `'ramp'`. -/
inductive CommandType where
  | on
  | off
  | ramp
deriving DecidableEq

/-- The `params` dict of a ramp command (`duration`, `level`). -/
structure RampParams where
  duration : Int
  level : Int
deriving DecidableEq

/-- The `mqtt_state` dicts built by `on_message` and stored on the queued
command as `mqtt_state_update`. -/
structure MqttState where
  state : List Char
  brightness : Int
  transition : Int
  device_type : DeviceType
deriving DecidableEq

/-- `QueuedCommand` (dataclass).  `params` is empty for on/off commands
and carries duration/level for ramps.  `sent_count` is a ghost field not
present in the source: it counts the send attempts made for this command
and is used only to state the bounded-attempts properties. -/
structure QueuedCommand where
  command_type : CommandType
  group_addr : Nat
  device_type : DeviceType
  params : Option RampParams
  confirmation_code : Option Nat
  timestamp : Nat
  retry_count : Nat
  max_retries : Nat
  is_retry : Bool
  mqtt_state_update : Option MqttState
  sent_count : Nat
deriving DecidableEq

/-- `CBusHandler.queue_command`: builds a fresh `QueuedCommand` with
`retry_count=0`, `max_retries=3`, `is_retry=False` and appends it to the
FIFO command queue. -/
def mkQueuedCommand (ct : CommandType) (ga : Nat) (dt : DeviceType)
    (ps : Option RampParams) (ms : MqttState) : QueuedCommand :=
  { command_type := ct, group_addr := ga, device_type := dt, params := ps,
    confirmation_code := none, timestamp := 0, retry_count := 0,
    max_retries := 3, is_retry := false, mqtt_state_update := some ms,
    sent_count := 0 }

/-- Lines 566-636 of `on_message`: normalise brightness and transition
for the device type and choose the command kind and the `mqtt_state` dict
passed to `queue_command`. -/
def enqueue_command_of_payload (ga : Nat) (dt : DeviceType) (p : InPayload) :
    QueuedCommand :=
  let light_on : Bool := pyUpper p.state == charsOf "ON"
  let brightness0 := p.brightness.getD 255
  let brightness : Int :=
    if dt = .light_non_dimmable ∨ dt = .switch then
      (if light_on then 255 else 0)
    else if brightness0 < 0 then 0
    else if brightness0 > 255 then 255
    else brightness0
  let transition0 := p.transition.getD 0
  let transition1 : Int := if transition0 < 0 then 0 else transition0
  let transition : Int :=
    if dt = .light_non_dimmable ∨ dt = .switch then 0 else transition1
  if light_on then
    if brightness = 255 ∧ transition = 0 then
      mkQueuedCommand .on ga dt none
        { state := charsOf "ON", brightness := 255, transition := 0,
          device_type := dt }
    else
      mkQueuedCommand .ramp ga dt (some { duration := transition, level := brightness })
        { state := if brightness > 0 then charsOf "ON" else charsOf "OFF",
          brightness := brightness, transition := transition,
          device_type := dt }
  else
    if transition > 0 then
      mkQueuedCommand .ramp ga dt (some { duration := transition, level := 0 })
        { state := charsOf "OFF", brightness := 0, transition := transition,
          device_type := dt }
    else
      mkQueuedCommand .off ga dt none
        { state := charsOf "OFF", brightness := 0, transition := 0,
          device_type := dt }

/-- `on_message` along the JSON-failure path: topic filtering, group
address resolution, device-type gating, and the plain-string payload
fallback; `none` means the message is logged and dropped with nothing
enqueued. -/
def on_message_nonjson (dts : DeviceTypes) (topic raw : List Char) :
    Option QueuedCommand :=
  if !(pyEndswith topic TOPIC_SET_SFX) then none
  else
    match get_topic_group_address topic with
    | none => none
    | some ga =>
      let dt := get_device_type ga dts
      if dt = .ignore then none
      else if dt = .binary_sensor then none
      else
        match fallback_parse_payload raw with
        | none => none
        | some p => some (enqueue_command_of_payload ga dt p)

/-- The single-quote character, written by code point to embed the
counterexample payload. -/
def quoteChar : Char := Char.ofNat 39

/-- The payload bytes consisting of `ON` surrounded by single quotes:
not valid JSON, so `json.loads` raises on it and `on_message` takes the
plain-string fallback. -/
def quotedOnPayload : List Char := quoteChar :: (charsOf "ON" ++ [quoteChar])

/-! ### Relay helpers: state publishes (MqttClient) -/

/-- The JSON state payload published for lights:
`state`, `brightness`, `transition`, `cbus_source_addr`, `color_mode`. -/
structure LightStatePayload where
  state : List Char
  brightness : Int
  transition : Int
  cbus_source_addr : Option Nat
  color_mode : List Char
deriving DecidableEq

/-- A state publish on the broker: JSON (lights) or a plain string
(switches and binary sensors), with QoS and retain flag. -/
inductive MqttStatePublish where
  | json (topic : List Char) (payload : LightStatePayload) (qos : Nat) (retain : Bool)
  | plain (topic : List Char) (payload : List Char) (qos : Nat) (retain : Bool)
deriving DecidableEq

/-- `MqttClient.publish_binary_sensor`. -/
def publish_binary_sensor (ga : Nat) (st : Bool) : MqttStatePublish :=
  .plain (bin_sensor_state_topic ga) (if st then charsOf "ON" else charsOf "OFF") 1 true

/-- The `color_mode` field set by the relay helpers. -/
def colorModeFor (dt : DeviceType) : List Char :=
  if dt = .light_non_dimmable then charsOf "onoff" else charsOf "brightness"

/-- `MqttClient.lighting_group_on`: relays a lighting-on event to MQTT
(binary sensors get a plain publish on their own topic, switches a plain
string, lights a JSON payload carrying the source address). -/
def mqtt_lighting_group_on (source_addr : Option Nat) (ga : Nat) (dt : DeviceType) :
    MqttStatePublish :=
  if dt = .binary_sensor then publish_binary_sensor ga true
  else if dt = .switch then .plain (state_topic_for_device ga dt) (charsOf "ON") 1 true
  else .json (state_topic_for_device ga dt)
    { state := charsOf "ON", brightness := 255, transition := 0,
      cbus_source_addr := source_addr, color_mode := colorModeFor dt } 1 true

/-- `MqttClient.lighting_group_off`. -/
def mqtt_lighting_group_off (source_addr : Option Nat) (ga : Nat) (dt : DeviceType) :
    MqttStatePublish :=
  if dt = .binary_sensor then publish_binary_sensor ga false
  else if dt = .switch then .plain (state_topic_for_device ga dt) (charsOf "OFF") 1 true
  else .json (state_topic_for_device ga dt)
    { state := charsOf "OFF", brightness := 0, transition := 0,
      cbus_source_addr := source_addr, color_mode := colorModeFor dt } 1 true

/-- `MqttClient.lighting_group_ramp`. -/
def mqtt_lighting_group_ramp (source_addr : Option Nat) (ga : Nat)
    (duration level : Int) (dt : DeviceType) : MqttStatePublish :=
  if dt = .binary_sensor then publish_binary_sensor ga (decide (0 < level))
  else if dt = .switch then
    .plain (state_topic_for_device ga dt)
      (if level = 0 then charsOf "OFF" else charsOf "ON") 1 true
  else .json (state_topic_for_device ga dt)
    { state := if level = 0 then charsOf "OFF" else charsOf "ON",
      brightness := level, transition := duration,
      cbus_source_addr := source_addr, color_mode := colorModeFor dt } 1 true

/-- The state publish made by `on_confirmation` on a successful
confirmation (lines 431-443): the payload is rebuilt from the command's
type and parameters via the same relay helpers used for unsolicited bus
events, with source address `None`.  Ramp commands always carry their
params dict; the `getD` default mirrors the `KeyError` that a paramless
ramp would raise and is never reached by commands built by
`queue_command`'s callers. -/
def confirm_success_publish (cmd : QueuedCommand) : MqttStatePublish :=
  match cmd.command_type with
  | .on => mqtt_lighting_group_on none cmd.group_addr cmd.device_type
  | .off => mqtt_lighting_group_off none cmd.group_addr cmd.device_type
  | .ramp =>
    mqtt_lighting_group_ramp none cmd.group_addr
      ((cmd.params.getD { duration := 0, level := 0 }).duration)
      ((cmd.params.getD { duration := 0, level := 0 }).level)
      cmd.device_type

/-- The source address carried by a state publish (`cbus_source_addr` of
the JSON payload; plain-string publishes carry none). -/
def publishSourceAddr : MqttStatePublish → Option Nat
  | .json _ p _ _ => p.cbus_source_addr
  | .plain _ _ _ _ => none

/-- The published state agrees with the command's projected state
(`mqtt_state_update`): same state string and, for JSON payloads, the same
brightness and transition, on the state topic of the command's device. -/
def projected_agrees (cmd : QueuedCommand) : Prop :=
  ∀ ms : MqttState, cmd.mqtt_state_update = some ms →
    match confirm_success_publish cmd with
    | .json t p _ _ =>
        t = state_topic_for_device cmd.group_addr cmd.device_type ∧
        p.state = ms.state ∧ p.brightness = ms.brightness ∧
        p.transition = ms.transition
    | .plain t sp _ _ =>
        t = state_topic_for_device cmd.group_addr cmd.device_type ∧
        sp = ms.state

/-! ### The command queue and dispatch engine (CBusHandler) -/

/-- The mutable queue-system state of `CBusHandler`: the FIFO command
queue, the retry deque, the pending-confirmation dict (confirmation code
to queued command), the `_queue_running` flag, and whether `mqtt_api` has
been bound by `on_connect`.  `tasks_created` is a ghost counter of
`create_task` calls made by `start_queue_system`. -/
structure HandlerState where
  command_queue : List QueuedCommand
  retry_queue : List QueuedCommand
  pending_confirmations : List (Nat × QueuedCommand)
  queue_running : Bool
  tasks_created : Nat
  mqtt_api : Bool
deriving DecidableEq

/-- `CBusHandler.__init__`: empty queues, queue system not running. -/
def initialState : HandlerState :=
  { command_queue := [], retry_queue := [], pending_confirmations := [],
    queue_running := false, tasks_created := 0, mqtt_api := false }

/-- Python dict assignment `pending_confirmations[code] = cmd`: any
previous binding of the code is replaced. -/
def dictInsert (m : List (Nat × QueuedCommand)) (k : Nat) (v : QueuedCommand) :
    List (Nat × QueuedCommand) :=
  m.filter (fun p => p.1 != k) ++ [(k, v)]

/-- Python `del pending_confirmations[code]`. -/
def dictErase (m : List (Nat × QueuedCommand)) (k : Nat) :
    List (Nat × QueuedCommand) :=
  m.filter (fun p => p.1 != k)

/-- `CBusHandler.start_queue_system`: returns immediately when
`_queue_running` is already true; otherwise creates the queue-processor
and timeout-watchdog tasks.  The `_queue_running` flag itself is set by
the processor task once it first runs (modelled by the separate
`processor_begin` step below). -/
def start_queue_system (s : HandlerState) : HandlerState :=
  if s.queue_running then s else { s with tasks_created := s.tasks_created + 2 }

/-- `CBusHandler.stop_queue_system`: clears `_queue_running` and cancels
the referenced tasks; the queues and the pending map are left untouched. -/
def stop_queue_system (s : HandlerState) : HandlerState :=
  { s with queue_running := false }

/-- Observable outcome of one engine step. -/
inductive StepLabel where
  | silent
  | published (p : MqttStatePublish)
  | errorLogged
deriving DecidableEq

/-- The field updates applied to a command when a retry is scheduled
(`retry_count += 1`, `is_retry = True`, confirmation code and timestamp
cleared). -/
def bumpRetry (cmd : QueuedCommand) : QueuedCommand :=
  { cmd with
    retry_count := cmd.retry_count + 1, is_retry := true,
    confirmation_code := none, timestamp := 0 }

/-- Retry arbitration on a failed attempt, shared by the no-confirmation
path of `_queue_processor` (lines 315-324), the timeout path of
`_timeout_watchdog` (lines 366-376) and the failure path of
`on_confirmation` (lines 444-458): below `max_retries` the command
re-enters the tail of the retry deque; otherwise it is dropped and an
error is logged at ERROR level, with no state publish. -/
def retry_arbitration_fail (s : HandlerState) (cmd : QueuedCommand) :
    HandlerState × StepLabel :=
  if cmd.retry_count < cmd.max_retries then
    ({ s with retry_queue := s.retry_queue ++ [bumpRetry cmd] }, .silent)
  else
    (s, .errorLogged)

/-- The command as stored into the pending map after a send that returned
a confirmation code (lines 307-313): code and send time are recorded; the
ghost send counter increments. -/
def sentOk (cmd : QueuedCommand) (tok t : Nat) : QueuedCommand :=
  { cmd with
    confirmation_code := some tok, timestamp := t,
    sent_count := cmd.sent_count + 1 }

/-- The command after a send attempt that raised or returned no
confirmation code; only the ghost send counter moves. -/
def sentNoTok (cmd : QueuedCommand) : QueuedCommand :=
  { cmd with sent_count := cmd.sent_count + 1 }

/-- The label of the success branch of `on_confirmation`: a state publish
happens only when `mqtt_api` is bound and `mqtt_state_update` is truthy
(line 431). -/
def successLabel (s : HandlerState) (cmd : QueuedCommand) : StepLabel :=
  if s.mqtt_api ∧ cmd.mqtt_state_update.isSome then
    .published (confirm_success_publish cmd)
  else
    .silent

/-- One step of the command-dispatch engine.  The dispatcher and watchdog
steps require `_queue_running`; the confirmation callback does not.  Send
outcomes and confirmation codes come from the PCI and are free parameters;
the watchdog fires on a pending entry once 250 ms have elapsed since its
send time (times in milliseconds).  The watchdog's removal of a timed-out
entry and its retry arbitration are modelled as one atomic step. -/
inductive Step : HandlerState → StepLabel → HandlerState → Prop where
  | enqueue (s : HandlerState) (ct : CommandType) (ga : Nat) (dt : DeviceType)
      (ps : Option RampParams) (ms : MqttState) :
      Step s .silent
        { s with command_queue := s.command_queue ++ [mkQueuedCommand ct ga dt ps ms] }
  | connect (s : HandlerState) :
      Step s .silent (start_queue_system { s with mqtt_api := true })
  | start_sys (s : HandlerState) :
      Step s .silent (start_queue_system s)
  | stop_sys (s : HandlerState) :
      Step s .silent (stop_queue_system s)
  | processor_begin (s : HandlerState) (h : 0 < s.tasks_created) :
      Step s .silent { s with queue_running := true }
  | dispatch_retry_ok (s : HandlerState) (cmd : QueuedCommand)
      (rest : List QueuedCommand) (tok t : Nat)
      (hrun : s.queue_running = true) (hq : s.retry_queue = cmd :: rest) :
      Step s .silent
        { s with
          retry_queue := rest,
          pending_confirmations :=
            dictInsert s.pending_confirmations tok (sentOk cmd tok t) }
  | dispatch_fresh_ok (s : HandlerState) (cmd : QueuedCommand)
      (rest : List QueuedCommand) (tok t : Nat)
      (hrun : s.queue_running = true) (hr : s.retry_queue = [])
      (hq : s.command_queue = cmd :: rest) :
      Step s .silent
        { s with
          command_queue := rest,
          pending_confirmations :=
            dictInsert s.pending_confirmations tok (sentOk cmd tok t) }
  | dispatch_retry_nocode (s : HandlerState) (cmd : QueuedCommand)
      (rest : List QueuedCommand) (l : StepLabel) (s2 : HandlerState)
      (hrun : s.queue_running = true) (hq : s.retry_queue = cmd :: rest)
      (harb : retry_arbitration_fail { s with retry_queue := rest } (sentNoTok cmd)
        = (s2, l)) :
      Step s l s2
  | dispatch_fresh_nocode (s : HandlerState) (cmd : QueuedCommand)
      (rest : List QueuedCommand) (l : StepLabel) (s2 : HandlerState)
      (hrun : s.queue_running = true) (hr : s.retry_queue = [])
      (hq : s.command_queue = cmd :: rest)
      (harb : retry_arbitration_fail { s with command_queue := rest } (sentNoTok cmd)
        = (s2, l)) :
      Step s l s2
  | confirm_unknown (s : HandlerState) (tok : Nat)
      (h : ∀ c, (tok, c) ∉ s.pending_confirmations) :
      Step s .silent s
  | confirm_success (s : HandlerState) (tok : Nat) (cmd : QueuedCommand)
      (h : (tok, cmd) ∈ s.pending_confirmations) :
      Step s (successLabel s cmd)
        { s with pending_confirmations := dictErase s.pending_confirmations tok }
  | confirm_fail (s : HandlerState) (tok : Nat) (cmd : QueuedCommand)
      (l : StepLabel) (s2 : HandlerState)
      (h : (tok, cmd) ∈ s.pending_confirmations)
      (harb : retry_arbitration_fail
        { s with pending_confirmations := dictErase s.pending_confirmations tok }
        cmd = (s2, l)) :
      Step s l s2
  | watchdog_timeout (s : HandlerState) (tok : Nat) (cmd : QueuedCommand)
      (now : Nat) (l : StepLabel) (s2 : HandlerState)
      (hrun : s.queue_running = true)
      (h : (tok, cmd) ∈ s.pending_confirmations)
      (ht : cmd.timestamp + 250 < now)
      (harb : retry_arbitration_fail
        { s with pending_confirmations := dictErase s.pending_confirmations tok }
        cmd = (s2, l)) :
      Step s l s2

/-- States of the engine reachable from the freshly constructed handler. -/
inductive Reachable : HandlerState → Prop where
  | init : Reachable initialState
  | step (s : HandlerState) (l : StepLabel) (s2 : HandlerState) :
      Reachable s → Step s l s2 → Reachable s2

/-! ### Concrete states used in traces below -/

/-- A fresh on-command for group address 10 (a dimmable light). -/
def cmdA : QueuedCommand :=
  mkQueuedCommand .on 10 .light none
    { state := charsOf "ON", brightness := 255, transition := 0, device_type := .light }

/-- A fresh off-command for group address 11 (a dimmable light). -/
def cmdB : QueuedCommand :=
  mkQueuedCommand .off 11 .light none
    { state := charsOf "OFF", brightness := 0, transition := 0, device_type := .light }

/-- State after `on_connect` bound `mqtt_api` and started the queue system. -/
def traceS1 : HandlerState :=
  { command_queue := [], retry_queue := [], pending_confirmations := [],
    queue_running := false, tasks_created := 2, mqtt_api := true }

/-- State after the processor task sets the running flag. -/
def traceS2 : HandlerState := { traceS1 with queue_running := true }

/-- State after `queue_command` enqueued `cmdA`. -/
def traceS3 : HandlerState := { traceS2 with command_queue := [cmdA] }

/-- State after `queue_command` enqueued `cmdB` as well. -/
def traceS4 : HandlerState := { traceS3 with command_queue := [cmdA, cmdB] }

/-- State after the dispatcher sent `cmdA` (confirmation code 1, sent at
time 1000 ms) and before any confirmation arrived. -/
def traceS5 : HandlerState :=
  { traceS4 with
    command_queue := [cmdB],
    pending_confirmations := [(1, sentOk cmdA 1 1000)] }

/-- State after the dispatcher, 100 ms later, also sent `cmdB`
(confirmation code 2) while `cmdA` was still unconfirmed: two entries are
pending at once. -/
def twoPendingState : HandlerState :=
  { traceS5 with
    command_queue := [],
    pending_confirmations := [(1, sentOk cmdA 1 1000), (2, sentOk cmdB 2 1100)] }

/-- A running, connected state with one pending confirmation, used to
instantiate the confirmation-handling theorems. -/
def oneInFlightState : HandlerState :=
  { command_queue := [], retry_queue := [],
    pending_confirmations := [(7, sentOk cmdA 7 500)],
    queue_running := true, tasks_created := 2, mqtt_api := true }

/-- A command whose four total send attempts have all failed. -/
def cmdExhausted : QueuedCommand :=
  { cmdA with retry_count := 3, sent_count := 4 }

/-- The state after the pending confirmation of `oneInFlightState` is
matched successfully and removed. -/
def confirmedState : HandlerState := { oneInFlightState with pending_confirmations := [] }

/-! ### Helper lemmas -/

/-- Round-trip of the light set topic over the whole group-address range. -/
theorem roundtrip_light_all :
    ∀ ga : Nat, ga < 256 → 1 ≤ ga →
      get_topic_group_address (set_topic ga) = some ga := by decide

/-- Round-trip of the switch set topic over the whole range. -/
theorem roundtrip_switch_all :
    ∀ ga : Nat, ga < 256 → 1 ≤ ga →
      get_topic_group_address (switch_set_topic ga) = some ga := by decide

/-- Round-trip of the binary-sensor set topic over the whole range. -/
theorem roundtrip_bin_all :
    ∀ ga : Nat, ga < 256 → 1 ≤ ga →
      get_topic_group_address (bin_sensor_set_topic ga) = some ga := by decide

/-- The decimal form of a group address starts with a digit. -/
theorem pyStr_head_digit_all :
    ∀ ga : Nat, ga < 256 → ((pyStr ga).head?.any Char.isDigit) = true := by decide

/-- Two appends with distinct prefixes of length at least `k` that differ
within their first `k` characters are distinct lists. -/
theorem append_ne_of_take_ne (a b xs ys : List Char) (k : Nat)
    (ha : k ≤ a.length) (hb : k ≤ b.length) (h : a.take k ≠ b.take k) :
    a ++ xs ≠ b ++ ys := by
  intro he
  apply h
  have h2 : (a ++ xs).take k = (b ++ ys).take k := by rw [he]
  rwa [List.take_append_of_le_length ha, List.take_append_of_le_length hb] at h2

/-- A light set topic never equals a binary-sensor set topic. -/
theorem set_topic_ne_bin_set (g ga : Nat) : set_topic g ≠ bin_sensor_set_topic ga := by
  rw [set_topic, bin_sensor_set_topic, List.append_assoc, List.append_assoc]
  exact append_ne_of_take_ne _ _ _ _ 15 (by decide) (by decide) (by decide)

/-- A switch set topic never equals a binary-sensor set topic. -/
theorem switch_set_topic_ne_bin_set (g ga : Nat) :
    switch_set_topic g ≠ bin_sensor_set_topic ga := by
  rw [switch_set_topic, bin_sensor_set_topic, List.append_assoc, List.append_assoc]
  exact append_ne_of_take_ne _ _ _ _ 15 (by decide) (by decide) (by decide)

/-- A list headed by the light topic head does not start with the switch
topic head. -/
theorem light_not_startswith_switch (xs : List Char) :
    pyStartswith (LIGHT_TOPIC_PFX ++ xs) SWITCH_TOPIC_PFX = false := by
  rw [pyStartswith, ← Bool.not_eq_true, List.isPrefixOf_iff_prefix]
  intro h
  obtain ⟨r, hr⟩ := h
  exact append_ne_of_take_ne SWITCH_TOPIC_PFX LIGHT_TOPIC_PFX r xs 15
    (by decide) (by decide) (by decide) hr

/-- A list headed by the light topic head does not start with the
binary-sensor topic head. -/
theorem light_not_startswith_bin (xs : List Char) :
    pyStartswith (LIGHT_TOPIC_PFX ++ xs) BINSENSOR_TOPIC_PFX = false := by
  rw [pyStartswith, ← Bool.not_eq_true, List.isPrefixOf_iff_prefix]
  intro h
  obtain ⟨r, hr⟩ := h
  exact append_ne_of_take_ne BINSENSOR_TOPIC_PFX LIGHT_TOPIC_PFX r xs 15
    (by decide) (by decide) (by decide) hr

/-- Membership of a group address in `ga_range`. -/
theorem mem_ga_range (ga : Nat) (h1 : MIN_GROUP_ADDR ≤ ga) (h2 : ga ≤ MAX_GROUP_ADDR) :
    ga ∈ ga_range := by
  have h1' : 1 ≤ ga := h1
  have h2' : ga ≤ 255 := h2
  show ga ∈ List.range' 1 255
  exact List.mem_range'_1.mpr ⟨h1', by omega⟩

/-- Both set topics of a commandable group address are in the
subscription list built by `on_connect`. -/
theorem mem_on_connect_topics (dts : DeviceTypes) (ga : Nat)
    (h1 : MIN_GROUP_ADDR ≤ ga) (h2 : ga ≤ MAX_GROUP_ADDR)
    (hig : get_device_type ga dts ≠ .ignore)
    (hbs : get_device_type ga dts ≠ .binary_sensor) :
    (set_topic ga, 2) ∈ on_connect_topics dts ∧
      (switch_set_topic ga, 2) ∈ on_connect_topics dts := by
  constructor <;>
  · rw [on_connect_topics, List.mem_flatMap]
    refine ⟨ga, mem_ga_range ga h1 h2, ?_⟩
    simp only [hig, hbs, if_neg, if_false]
    simp [hig, hbs]

/-- Every pair in the subscription list is a light or switch set topic at
QoS 2. -/
theorem on_connect_topics_shape (dts : DeviceTypes) (p : List Char × Nat)
    (h : p ∈ on_connect_topics dts) :
    ∃ g, g ∈ ga_range ∧ (p = (set_topic g, 2) ∨ p = (switch_set_topic g, 2)) := by
  rw [on_connect_topics, List.mem_flatMap] at h
  obtain ⟨g, hg, hmem⟩ := h
  refine ⟨g, hg, ?_⟩
  by_cases hig : get_device_type g dts = .ignore
  · simp [hig] at hmem
  · by_cases hbs : get_device_type g dts = .binary_sensor
    · simp [hig, hbs] at hmem
    · simp [hig, hbs] at hmem
      rcases hmem with h | h
      · left; exact h
      · right; exact h

/-! ### Claim C7 -/

/-- C7: for every group address in the valid range [MIN_GA, MAX_GA] and
every device kind in {light, switch}, parsing the set topic built for
that pair returns the same group address (topic round-trip). -/
theorem c7_set_topic_roundtrip (ga : Nat) (h1 : MIN_GROUP_ADDR ≤ ga)
    (h2 : ga ≤ MAX_GROUP_ADDR) (dt : DeviceType)
    (hdt : dt = DeviceType.light ∨ dt = DeviceType.switch) :
    get_topic_group_address (set_topic_for_device ga dt) = some ga := by
  have h1' : 1 ≤ ga := h1
  have h2' : ga ≤ 255 := h2
  have hst : set_topic_for_device ga dt = set_topic ga := by cases dt <;> rfl
  rw [hst]
  exact roundtrip_light_all ga (by omega) h1'

/-- Witness for C7 at group address 12. -/
theorem c7_set_topic_roundtrip_witness :
    MIN_GROUP_ADDR ≤ 12 ∧ 12 ≤ MAX_GROUP_ADDR ∧
      get_topic_group_address (set_topic_for_device 12 DeviceType.switch) = some 12 :=
  ⟨by decide, by decide,
    c7_set_topic_roundtrip 12 (by decide) (by decide) DeviceType.switch (Or.inr rfl)⟩

/-! ### Claim C9 -/

/-- C9: `set_topic_for_device` returns the light set topic for every
group address and device type (including switches and binary sensors) and
never produces a command topic under the switch or binary-sensor topic
heads, even though the switch discovery config advertises a
switch-headed command topic and `on_connect` subscribes under both the
light and switch heads. -/
theorem c9_set_topic_for_device_always_light :
    (∀ (ga : Nat) (dt : DeviceType),
      set_topic_for_device ga dt = LIGHT_TOPIC_PFX ++ pyStr ga ++ TOPIC_SET_SFX ∧
      pyStartswith (set_topic_for_device ga dt) SWITCH_TOPIC_PFX = false ∧
      pyStartswith (set_topic_for_device ga dt) BINSENSOR_TOPIC_PFX = false) ∧
    (∀ ga : Nat, publish_switch_config ga =
      MqttAction.publishJson (SWITCH_TOPIC_PFX ++ pyStr ga ++ TOPIC_CONF_SFX)
        { cmd_t := some (switch_set_topic ga),
          stat_t := SWITCH_TOPIC_PFX ++ pyStr ga ++ TOPIC_STATE_SFX } 1 true) ∧
    (∀ (dts : DeviceTypes) (ga : Nat), MIN_GROUP_ADDR ≤ ga → ga ≤ MAX_GROUP_ADDR →
      get_device_type ga dts ≠ .ignore → get_device_type ga dts ≠ .binary_sensor →
      (set_topic ga, 2) ∈ on_connect_topics dts ∧
        (switch_set_topic ga, 2) ∈ on_connect_topics dts) := by
  refine ⟨?_, ?_, ?_⟩
  · intro ga dt
    have hst : set_topic_for_device ga dt = set_topic ga := by cases dt <;> rfl
    refine ⟨by rw [hst, set_topic], ?_, ?_⟩
    · rw [hst, set_topic, List.append_assoc]
      exact light_not_startswith_switch _
    · rw [hst, set_topic, List.append_assoc]
      exact light_not_startswith_bin _
  · intro ga
    rfl
  · intro dts ga h1 h2 hig hbs
    exact mem_on_connect_topics dts ga h1 h2 hig hbs

/-- Witness for C9 at group address 90 configured as a switch. -/
theorem c9_set_topic_for_device_always_light_witness :
    set_topic_for_device 90 DeviceType.switch
        = LIGHT_TOPIC_PFX ++ pyStr 90 ++ TOPIC_SET_SFX ∧
      pyStartswith (set_topic_for_device 90 DeviceType.switch) SWITCH_TOPIC_PFX = false ∧
      (switch_set_topic 90, 2) ∈ on_connect_topics emptyDeviceTypes :=
  ⟨(c9_set_topic_for_device_always_light.1 90 DeviceType.switch).1,
   (c9_set_topic_for_device_always_light.1 90 DeviceType.switch).2.1,
   (c9_set_topic_for_device_always_light.2.2 emptyDeviceTypes 90 (by decide) (by decide)
      (by decide) (by decide)).2⟩

/-! ### Claim C10 -/

/-- C10: for every group address in the valid range, the binary-sensor
set topic is accepted by the set-topic parser and yields that group
address (no InvalidTopic), even though no such topic ever appears in the
subscription list built by `on_connect`. -/
theorem c10_bin_sensor_set_topic_parses (ga : Nat) (h1 : MIN_GROUP_ADDR ≤ ga)
    (h2 : ga ≤ MAX_GROUP_ADDR) :
    get_topic_group_address (bin_sensor_set_topic ga) = some ga ∧
      ∀ (dts : DeviceTypes) (q : Nat),
        (bin_sensor_set_topic ga, q) ∉ on_connect_topics dts := by
  have h1' : 1 ≤ ga := h1
  have h2' : ga ≤ 255 := h2
  constructor
  · exact roundtrip_bin_all ga (by omega) h1'
  · intro dts q hmem
    obtain ⟨g, _, hshape⟩ := on_connect_topics_shape dts _ hmem
    rcases hshape with h | h
    · exact set_topic_ne_bin_set g ga (congrArg Prod.fst h).symm
    · exact switch_set_topic_ne_bin_set g ga (congrArg Prod.fst h).symm

/-! ### Helper lemmas for the discovery claims -/

/-- A decimal group-address segment followed by a suffix is never the
`cmqttd` meta segment followed by the same suffix. -/
theorem pyStr_append_ne_cmqttd (g : Nat) (hlt : g < 256) (xs : List Char) :
    pyStr g ++ xs ≠ charsOf "cmqttd" ++ xs := by
  intro he
  have hd := pyStr_head_digit_all g hlt
  have h1 : (pyStr g ++ xs).head? = (charsOf "cmqttd" ++ xs).head? := by rw [he]
  rw [List.head?_append, List.head?_append] at h1
  cases hh : (pyStr g).head? with
  | none =>
    rw [hh] at hd
    exact absurd hd (by decide)
  | some c =>
    rw [hh] at hd h1
    have hd2 : c.isDigit = true := hd
    have h2 : some c = some 'c' := h1
    have h3 : c = 'c' := Option.some.inj h2
    rw [h3] at hd2
    exact absurd hd2 (by decide)

/-- A light config topic is never the meta-device config topic. -/
theorem conf_topic_ne_meta (g : Nat) :
    conf_topic g ≠ META_TOPIC ++ TOPIC_CONF_SFX := by
  rw [conf_topic, List.append_assoc]
  have hm : META_TOPIC ++ TOPIC_CONF_SFX = BINSENSOR_TOPIC_PFX ++ charsOf "cmqttd/config" := by
    decide
  rw [hm]
  exact append_ne_of_take_ne _ _ _ _ 15 (by decide) (by decide) (by decide)

/-- A switch config topic is never the meta-device config topic. -/
theorem switch_conf_topic_ne_meta (g : Nat) :
    SWITCH_TOPIC_PFX ++ pyStr g ++ TOPIC_CONF_SFX ≠ META_TOPIC ++ TOPIC_CONF_SFX := by
  rw [List.append_assoc]
  have hm : META_TOPIC ++ TOPIC_CONF_SFX = BINSENSOR_TOPIC_PFX ++ charsOf "cmqttd/config" := by
    decide
  rw [hm]
  exact append_ne_of_take_ne _ _ _ _ 15 (by decide) (by decide) (by decide)

/-- A binary-sensor config topic is never the meta-device config topic. -/
theorem bin_conf_topic_ne_meta (g : Nat) (hlt : g < 256) :
    bin_sensor_conf_topic g ≠ META_TOPIC ++ TOPIC_CONF_SFX := by
  rw [bin_sensor_conf_topic, List.append_assoc]
  have hm : META_TOPIC ++ TOPIC_CONF_SFX
      = BINSENSOR_TOPIC_PFX ++ (charsOf "cmqttd" ++ TOPIC_CONF_SFX) := by decide
  rw [hm]
  intro he
  exact pyStr_append_ne_cmqttd g hlt TOPIC_CONF_SFX (List.append_cancel_left he)

/-- No per-group-address discovery config equals the meta-device config
action. -/
theorem config_actions_ne_meta (dts : DeviceTypes) (g : Nat) (hg : g ∈ ga_range)
    (a : MqttAction) (h : a ∈ config_actions_for g (get_device_type g dts)) :
    a ≠ meta_config_action := by
  have hlt : g < 256 := by
    have := List.mem_range'_1.mp (show g ∈ List.range' 1 255 from hg)
    omega
  intro he
  cases hdt : get_device_type g dts <;> rw [hdt] at h
  case light =>
    simp only [config_actions_for, List.mem_singleton] at h
    have heq : publish_light_config g true = meta_config_action := h.symm.trans he
    have ht : conf_topic g = META_TOPIC ++ TOPIC_CONF_SFX := congrArg actionTopic heq
    exact conf_topic_ne_meta g ht
  case light_non_dimmable =>
    simp only [config_actions_for, List.mem_singleton] at h
    have heq : publish_light_config g false = meta_config_action := h.symm.trans he
    have ht : conf_topic g = META_TOPIC ++ TOPIC_CONF_SFX := congrArg actionTopic heq
    exact conf_topic_ne_meta g ht
  case switch =>
    simp only [config_actions_for, List.mem_singleton] at h
    have heq : publish_switch_config g = meta_config_action := h.symm.trans he
    have ht : SWITCH_TOPIC_PFX ++ pyStr g ++ TOPIC_CONF_SFX = META_TOPIC ++ TOPIC_CONF_SFX :=
      congrArg actionTopic heq
    exact switch_conf_topic_ne_meta g ht
  case binary_sensor =>
    simp only [config_actions_for, List.mem_singleton] at h
    have heq : publish_binary_sensor_config g = meta_config_action := h.symm.trans he
    have ht : bin_sensor_conf_topic g = META_TOPIC ++ TOPIC_CONF_SFX := congrArg actionTopic heq
    exact bin_conf_topic_ne_meta g hlt ht
  case ignore =>
    simp only [config_actions_for] at h
    exact absurd h (List.not_mem_nil a)

/-- Every action of `publish_all_lights` is a publish, not a
subscription. -/
theorem publish_all_lights_no_subscribe (dts : DeviceTypes) (a : MqttAction)
    (h : a ∈ publish_all_lights dts) : isSubscribeAction a = false := by
  rw [publish_all_lights] at h
  rcases List.mem_cons.mp h with h | h
  · rw [h]; rfl
  · obtain ⟨g, _, hmem⟩ := List.mem_flatMap.mp h
    cases hdt : get_device_type g dts <;> rw [hdt] at hmem <;>
      simp only [config_actions_for, List.mem_singleton] at hmem
    case light => rw [hmem]; rfl
    case light_non_dimmable => rw [hmem]; rfl
    case switch => rw [hmem]; rfl
    case binary_sensor => rw [hmem]; rfl
    case ignore => exact absurd hmem (List.not_mem_nil a)

/-- A discovery config is published for every non-ignored group address,
on the config topic of its device kind, retained at QoS 1. -/
theorem config_published_for (dts : DeviceTypes) (ga : Nat)
    (h1 : MIN_GROUP_ADDR ≤ ga) (h2 : ga ≤ MAX_GROUP_ADDR)
    (hig : get_device_type ga dts ≠ .ignore) :
    ∃ doc : ConfigDoc,
      MqttAction.publishJson (conf_topic_for_device ga (get_device_type ga dts)) doc 1 true
        ∈ publish_all_lights dts := by
  have hga : ga ∈ ga_range := mem_ga_range ga h1 h2
  rw [publish_all_lights]
  cases hdt : get_device_type ga dts
  case light =>
    refine ⟨{ cmd_t := some (set_topic ga), stat_t := state_topic ga },
      List.mem_cons_of_mem _ (List.mem_flatMap.mpr ⟨ga, hga, ?_⟩)⟩
    rw [hdt]
    simp only [config_actions_for]
    exact List.mem_singleton.mpr rfl
  case light_non_dimmable =>
    refine ⟨{ cmd_t := some (set_topic ga), stat_t := state_topic ga },
      List.mem_cons_of_mem _ (List.mem_flatMap.mpr ⟨ga, hga, ?_⟩)⟩
    rw [hdt]
    simp only [config_actions_for]
    exact List.mem_singleton.mpr rfl
  case switch =>
    refine ⟨{ cmd_t := some (switch_set_topic ga),
              stat_t := SWITCH_TOPIC_PFX ++ pyStr ga ++ TOPIC_STATE_SFX },
      List.mem_cons_of_mem _ (List.mem_flatMap.mpr ⟨ga, hga, ?_⟩)⟩
    rw [hdt]
    simp only [config_actions_for]
    exact List.mem_singleton.mpr rfl
  case binary_sensor =>
    refine ⟨{ cmd_t := none, stat_t := bin_sensor_state_topic ga },
      List.mem_cons_of_mem _ (List.mem_flatMap.mpr ⟨ga, hga, ?_⟩)⟩
    rw [hdt]
    simp only [config_actions_for]
    exact List.mem_singleton.mpr rfl
  case ignore => exact absurd hdt hig

/-! ### Claim C6 -/

/-- C6 counterexample: with the default device-type configuration the
first MQTT action of `on_connect` is the subscription, and the discovery
publishes (the meta config at index 1, the config for group address 1 at
index 2) all come after it — the code subscribes before it publishes the
discovery documents, not the other way around as claimed. -/
theorem c6_on_connect_order_counterexample :
    ((on_connect_actions emptyDeviceTypes).head?.map isSubscribeAction) = some true ∧
    (on_connect_actions emptyDeviceTypes).get? 1 = some meta_config_action ∧
    (on_connect_actions emptyDeviceTypes).get? 2 = some (publish_light_config 1 true) :=
  ⟨rfl, rfl, rfl⟩

/-- C6 (amended): on MQTT connect the client first subscribes (QoS 2) to
the set topics under both the light and switch topic heads for every
non-ignored, non-binary-sensor group address, and then — not before —
publishes a retained JSON discovery document on the config topic of the
kind of every non-ignored group address, with the meta device config
published exactly once. -/
theorem c6_on_connect_discovery (dts : DeviceTypes) :
    ((on_connect_actions dts).head? = some (.subscribe (on_connect_topics dts))) ∧
    (∀ a ∈ (on_connect_actions dts).tail, isSubscribeAction a = false) ∧
    (∀ ga : Nat, MIN_GROUP_ADDR ≤ ga → ga ≤ MAX_GROUP_ADDR →
      get_device_type ga dts ≠ .ignore →
      ∃ doc : ConfigDoc,
        MqttAction.publishJson (conf_topic_for_device ga (get_device_type ga dts)) doc 1 true
          ∈ on_connect_actions dts) ∧
    (∀ ga : Nat, MIN_GROUP_ADDR ≤ ga → ga ≤ MAX_GROUP_ADDR →
      get_device_type ga dts ≠ .ignore → get_device_type ga dts ≠ .binary_sensor →
      (set_topic ga, 2) ∈ on_connect_topics dts ∧
        (switch_set_topic ga, 2) ∈ on_connect_topics dts) ∧
    (∀ p ∈ on_connect_topics dts, p.2 = 2) ∧
    ((on_connect_actions dts).count meta_config_action = 1) := by
  refine ⟨rfl, ?_, ?_, ?_, ?_, ?_⟩
  · intro a ha
    exact publish_all_lights_no_subscribe dts a ha
  · intro ga h1 h2 hig
    obtain ⟨doc, hmem⟩ := config_published_for dts ga h1 h2 hig
    exact ⟨doc, List.mem_cons_of_mem _ hmem⟩
  · intro ga h1 h2 hig hbs
    exact mem_on_connect_topics dts ga h1 h2 hig hbs
  · intro p hp
    obtain ⟨g, _, hshape⟩ := on_connect_topics_shape dts p hp
    rcases hshape with h | h <;> rw [h]
  · show (MqttAction.subscribe (on_connect_topics dts) :: publish_all_lights dts).count
      meta_config_action = 1
    rw [List.count_cons_of_ne (by intro h; exact MqttAction.noConfusion h)]
    rw [publish_all_lights, List.count_cons_self]
    have h0 : (ga_range.flatMap fun ga =>
        config_actions_for ga (get_device_type ga dts)).count meta_config_action = 0 := by
      rw [List.count_eq_zero]
      intro hmem
      obtain ⟨g, hg, hmem2⟩ := List.mem_flatMap.mp hmem
      exact config_actions_ne_meta dts g hg meta_config_action hmem2 rfl
    rw [h0]

/-- Witness for C6 (amended) at the default device-type table and group
address 1. -/
theorem c6_on_connect_discovery_witness :
    ((on_connect_actions emptyDeviceTypes).count meta_config_action = 1) ∧
    (∃ doc : ConfigDoc,
      MqttAction.publishJson
        (conf_topic_for_device 1 (get_device_type 1 emptyDeviceTypes)) doc 1 true
        ∈ on_connect_actions emptyDeviceTypes) ∧
    (set_topic 1, 2) ∈ on_connect_topics emptyDeviceTypes :=
  ⟨(c6_on_connect_discovery emptyDeviceTypes).2.2.2.2.2,
   (c6_on_connect_discovery emptyDeviceTypes).2.2.1 1 (by decide) (by decide) (by decide),
   ((c6_on_connect_discovery emptyDeviceTypes).2.2.2.1 1 (by decide) (by decide)
      (by decide) (by decide)).1⟩

/-! ### Claim C5 -/

/-- Along the JSON-failure path, once the topic has resolved and the
device is commandable, `on_message` applies the plain-string fallback and
enqueues the resulting command, if any. -/
theorem on_message_nonjson_eq (dts : DeviceTypes) (topic raw : List Char) (ga : Nat)
    (hga : get_topic_group_address topic = some ga)
    (hsfx : pyEndswith topic TOPIC_SET_SFX = true)
    (hig : get_device_type ga dts ≠ .ignore)
    (hbs : get_device_type ga dts ≠ .binary_sensor) :
    on_message_nonjson dts topic raw =
      match fallback_parse_payload raw with
      | none => none
      | some p => some (enqueue_command_of_payload ga (get_device_type ga dts) p) := by
  simp only [on_message_nonjson, hsfx, hga, Bool.not_true, Bool.false_eq_true, if_false,
    if_neg hig, if_neg hbs]

/-- The fallback accepts a payload whose trimmed upper-casing is `ON`. -/
theorem fallback_on (raw : List Char) (h : pyUpper (pyStrip raw) = charsOf "ON") :
    fallback_parse_payload raw
      = some { state := charsOf "ON", brightness := none, transition := none } := by
  simp only [fallback_parse_payload, h]
  simp

/-- The fallback accepts a payload whose trimmed upper-casing is `OFF`. -/
theorem fallback_off (raw : List Char) (h : pyUpper (pyStrip raw) = charsOf "OFF") :
    fallback_parse_payload raw
      = some { state := charsOf "OFF", brightness := none, transition := none } := by
  simp only [fallback_parse_payload, h]
  simp

/-- A synthesized `ON` payload becomes an on-command for every device
kind (default brightness 255, default transition 0). -/
theorem enqueue_on (ga : Nat) (dt : DeviceType) :
    enqueue_command_of_payload ga dt
      { state := charsOf "ON", brightness := none, transition := none } =
      mkQueuedCommand .on ga dt none
        { state := charsOf "ON", brightness := 255, transition := 0,
          device_type := dt } := by
  cases dt <;> rfl

/-- A synthesized `OFF` payload becomes an off-command for every device
kind. -/
theorem enqueue_off (ga : Nat) (dt : DeviceType) :
    enqueue_command_of_payload ga dt
      { state := charsOf "OFF", brightness := none, transition := none } =
      mkQueuedCommand .off ga dt none
        { state := charsOf "OFF", brightness := 0, transition := 0,
          device_type := dt } := by
  cases dt <;> rfl

/-- C5 counterexample: the payload consisting of `ON` surrounded by
single quotes is not valid JSON (`json.loads` raises on it), its trimmed
upper-casing is exactly the literal `ON` with surrounding quote
characters, and yet `on_message` rejects it as an invalid payload and
enqueues nothing — quoted literals are not accepted on the reachable
fallback path, contrary to the claim. -/
theorem c5_quoted_payload_counterexample :
    on_message_nonjson emptyDeviceTypes (set_topic 5) quotedOnPayload = none ∧
    pyUpper (pyStrip quotedOnPayload) = quoteChar :: (charsOf "ON" ++ [quoteChar]) := by
  constructor
  · decide
  · decide

/-- C5 (amended): for every inbound set-topic payload whose bytes fail to
parse as JSON and decode as UTF-8, exactly the payloads whose bytes,
trimmed and upper-cased, equal the bare literal `ON` or `OFF` (without
any surrounding quotes) synthesize a command intent with that state and
enqueue it; every other such payload is an invalid payload, logged at
ERROR and dropped with nothing enqueued and no state change. -/
theorem c5_plain_payload_fallback (dts : DeviceTypes) (topic raw : List Char) (ga : Nat)
    (hga : get_topic_group_address topic = some ga)
    (hsfx : pyEndswith topic TOPIC_SET_SFX = true)
    (hig : get_device_type ga dts ≠ .ignore)
    (hbs : get_device_type ga dts ≠ .binary_sensor) :
    (pyUpper (pyStrip raw) = charsOf "ON" →
      on_message_nonjson dts topic raw
        = some (mkQueuedCommand .on ga (get_device_type ga dts) none
            { state := charsOf "ON", brightness := 255, transition := 0,
              device_type := get_device_type ga dts })) ∧
    (pyUpper (pyStrip raw) = charsOf "OFF" →
      on_message_nonjson dts topic raw
        = some (mkQueuedCommand .off ga (get_device_type ga dts) none
            { state := charsOf "OFF", brightness := 0, transition := 0,
              device_type := get_device_type ga dts })) ∧
    (pyUpper (pyStrip raw) ≠ charsOf "ON" → pyUpper (pyStrip raw) ≠ charsOf "OFF" →
      on_message_nonjson dts topic raw = none) := by
  rw [on_message_nonjson_eq dts topic raw ga hga hsfx hig hbs]
  refine ⟨?_, ?_, ?_⟩
  · intro hON
    rw [fallback_on raw hON]
    exact congrArg some (enqueue_on ga (get_device_type ga dts))
  · intro hOFF
    rw [fallback_off raw hOFF]
    exact congrArg some (enqueue_off ga (get_device_type ga dts))
  · intro hON hOFF
    have hnone : fallback_parse_payload raw = none := by
      simp only [fallback_parse_payload]
      rw [if_neg]
      intro h
      rcases h with h | h
      · exact hON h
      · exact hOFF h
    rw [hnone]

/-- Witness for C5 (amended): the raw payload consisting of lower-case
`on` with surrounding spaces is accepted and enqueued as an on-command
for group address 5. -/
theorem c5_plain_payload_fallback_witness :
    on_message_nonjson emptyDeviceTypes (set_topic 5) (charsOf " on ")
      = some (mkQueuedCommand .on 5 (get_device_type 5 emptyDeviceTypes) none
          { state := charsOf "ON", brightness := 255, transition := 0,
            device_type := get_device_type 5 emptyDeviceTypes }) :=
  (c5_plain_payload_fallback emptyDeviceTypes (set_topic 5) (charsOf " on ") 5
    (by decide) (by decide) (by decide) (by decide)).1 (by decide)

/-- Witness for C10 at group address 20. -/
theorem c10_bin_sensor_set_topic_parses_witness :
    get_topic_group_address (bin_sensor_set_topic 20) = some 20 ∧
      (bin_sensor_set_topic 20, 2) ∉ on_connect_topics emptyDeviceTypes :=
  ⟨(c10_bin_sensor_set_topic_parses 20 (by decide) (by decide)).1,
   (c10_bin_sensor_set_topic_parses 20 (by decide) (by decide)).2 emptyDeviceTypes 2⟩
/-- Inversion of the retry arbitration: either the command had attempts
left and was appended to the retry deque with its counter bumped, or it
is dropped with an error logged and the state unchanged. -/
theorem retry_arb_cases (s : HandlerState) (cmd : QueuedCommand) (s2 : HandlerState)
    (l : StepLabel) (h : retry_arbitration_fail s cmd = (s2, l)) :
    (cmd.retry_count < cmd.max_retries ∧
      s2 = { s with retry_queue := s.retry_queue ++ [bumpRetry cmd] } ∧ l = .silent) ∨
    (¬ cmd.retry_count < cmd.max_retries ∧ s2 = s ∧ l = .errorLogged) := by
  by_cases hc : cmd.retry_count < cmd.max_retries
  · rw [retry_arbitration_fail, if_pos hc] at h
    injection h with h1 h2
    exact Or.inl ⟨hc, h1.symm, h2.symm⟩
  · rw [retry_arbitration_fail, if_neg hc] at h
    injection h with h1 h2
    exact Or.inr ⟨hc, h1.symm, h2.symm⟩

/-- A command whose retries are exhausted is dropped: the arbitration
leaves the state unchanged and logs an error. -/
theorem retry_arb_exhaust (s : HandlerState) (cmd : QueuedCommand)
    (h : cmd.max_retries ≤ cmd.retry_count) :
    retry_arbitration_fail s cmd = (s, .errorLogged) := by
  rw [retry_arbitration_fail, if_neg (by omega)]

/-- Members of the pending map after an insertion. -/
theorem mem_dictInsert (m : List (Nat × QueuedCommand)) (k : Nat) (v : QueuedCommand)
    (p : Nat × QueuedCommand) (h : p ∈ dictInsert m k v) : p ∈ m ∨ p = (k, v) := by
  rcases List.mem_append.mp h with h | h
  · exact Or.inl (List.mem_filter.mp h).1
  · exact Or.inr (List.mem_singleton.mp h)

/-- Members of the pending map after a deletion. -/
theorem mem_dictErase (m : List (Nat × QueuedCommand)) (k : Nat)
    (p : Nat × QueuedCommand) (h : p ∈ dictErase m k) : p ∈ m :=
  (List.mem_filter.mp h).1

/-- `start_queue_system` touches no queue. -/
theorem start_queue_system_queues (s : HandlerState) :
    (start_queue_system s).command_queue = s.command_queue ∧
    (start_queue_system s).retry_queue = s.retry_queue ∧
    (start_queue_system s).pending_confirmations = s.pending_confirmations := by
  rw [start_queue_system]
  split <;> exact ⟨rfl, rfl, rfl⟩

/-- The send-attempt accounting invariant of the engine: fresh commands
have no attempts; a command in the retry deque has been sent exactly
`retry_count` times with `retry_count` at most 3; a pending command has
been sent `retry_count + 1` times. -/
theorem reachable_attempts_inv (s : HandlerState) (h : Reachable s) :
    (∀ c ∈ s.command_queue, c.retry_count = 0 ∧ c.sent_count = 0 ∧ c.max_retries = 3) ∧
    (∀ c ∈ s.retry_queue, c.sent_count = c.retry_count ∧ c.retry_count ≤ 3 ∧
      c.max_retries = 3) ∧
    (∀ p ∈ s.pending_confirmations, p.2.sent_count = p.2.retry_count + 1 ∧
      p.2.retry_count ≤ 3 ∧ p.2.max_retries = 3) := by
  induction h with
  | init =>
    refine ⟨?_, ?_, ?_⟩ <;> intro c hc <;> exact absurd hc (List.not_mem_nil c)
  | step s l s2 hr hstep ih =>
    obtain ⟨ih1, ih2, ih3⟩ := ih
    cases hstep with
    | enqueue ct ga dt ps ms =>
      refine ⟨?_, ih2, ih3⟩
      intro c hc
      rcases List.mem_append.mp hc with h | h
      · exact ih1 c h
      · rw [List.mem_singleton] at h
        rw [h]
        exact ⟨rfl, rfl, rfl⟩
    | connect =>
      obtain ⟨e1, e2, e3⟩ := start_queue_system_queues { s with mqtt_api := true }
      rw [e1, e2, e3]
      exact ⟨ih1, ih2, ih3⟩
    | start_sys =>
      obtain ⟨e1, e2, e3⟩ := start_queue_system_queues s
      rw [e1, e2, e3]
      exact ⟨ih1, ih2, ih3⟩
    | stop_sys =>
      exact ⟨ih1, ih2, ih3⟩
    | processor_begin h =>
      exact ⟨ih1, ih2, ih3⟩
    | dispatch_retry_ok cmd rest tok t hrun hq =>
      have hcmd := ih2 cmd (by rw [hq]; exact List.mem_cons_self cmd rest)
      refine ⟨ih1, ?_, ?_⟩
      · intro c hc
        exact ih2 c (by rw [hq]; exact List.mem_cons_of_mem cmd hc)
      · intro p hp
        rcases mem_dictInsert _ _ _ p hp with h | h
        · exact ih3 p h
        · rw [h]
          refine ⟨?_, hcmd.2.1, hcmd.2.2⟩
          show cmd.sent_count + 1 = cmd.retry_count + 1
          rw [hcmd.1]
    | dispatch_fresh_ok cmd rest tok t hrun hrq hq =>
      have hcmd := ih1 cmd (by rw [hq]; exact List.mem_cons_self cmd rest)
      refine ⟨?_, ih2, ?_⟩
      · intro c hc
        exact ih1 c (by rw [hq]; exact List.mem_cons_of_mem cmd hc)
      · intro p hp
        rcases mem_dictInsert _ _ _ p hp with h | h
        · exact ih3 p h
        · rw [h]
          refine ⟨?_, ?_, hcmd.2.2⟩
          · show cmd.sent_count + 1 = cmd.retry_count + 1
            rw [hcmd.1, hcmd.2.1]
          · show cmd.retry_count ≤ 3
            rw [hcmd.1]
            omega
    | dispatch_retry_nocode cmd rest l2 s3 hrun hq harb =>
      have hcmd := ih2 cmd (by rw [hq]; exact List.mem_cons_self cmd rest)
      have hrest : ∀ c ∈ rest, c.sent_count = c.retry_count ∧ c.retry_count ≤ 3 ∧
          c.max_retries = 3 := by
        intro c hc
        exact ih2 c (by rw [hq]; exact List.mem_cons_of_mem cmd hc)
      rcases retry_arb_cases _ _ _ _ harb with ⟨hlt, hs2, hl⟩ | ⟨hge, hs2, hl⟩
      · rw [hs2]
        refine ⟨ih1, ?_, ih3⟩
        intro c hc
        rcases List.mem_append.mp hc with h | h
        · exact hrest c h
        · rw [List.mem_singleton] at h
          rw [h]
          have hm : (sentNoTok cmd).max_retries = 3 := hcmd.2.2
          have hlt3 : cmd.retry_count < 3 := by
            have := hlt
            rw [hm] at this
            exact this
          refine ⟨?_, by show cmd.retry_count + 1 ≤ 3; omega, hcmd.2.2⟩
          show cmd.sent_count + 1 = cmd.retry_count + 1
          rw [hcmd.1]
      · rw [hs2]
        exact ⟨ih1, hrest, ih3⟩
    | dispatch_fresh_nocode cmd rest l2 s3 hrun hrq hq harb =>
      have hcmd := ih1 cmd (by rw [hq]; exact List.mem_cons_self cmd rest)
      have hrest : ∀ c ∈ rest, c.retry_count = 0 ∧ c.sent_count = 0 ∧
          c.max_retries = 3 := by
        intro c hc
        exact ih1 c (by rw [hq]; exact List.mem_cons_of_mem cmd hc)
      rcases retry_arb_cases _ _ _ _ harb with ⟨hlt, hs2, hl⟩ | ⟨hge, hs2, hl⟩
      · rw [hs2]
        refine ⟨hrest, ?_, ih3⟩
        intro c hc
        rcases List.mem_append.mp hc with h | h
        · exact ih2 c h
        · rw [List.mem_singleton] at h
          rw [h]
          refine ⟨?_, ?_, hcmd.2.2⟩
          · show cmd.sent_count + 1 = cmd.retry_count + 1
            rw [hcmd.1, hcmd.2.1]
          · show cmd.retry_count + 1 ≤ 3
            rw [hcmd.1]
            omega
      · rw [hs2]
        exact ⟨hrest, ih2, ih3⟩
    | confirm_unknown tok h =>
      exact ⟨ih1, ih2, ih3⟩
    | confirm_success tok cmd h =>
      refine ⟨ih1, ih2, ?_⟩
      intro p hp
      exact ih3 p (mem_dictErase _ _ p hp)
    | confirm_fail tok cmd l2 s3 h harb =>
      have hcmd := ih3 (tok, cmd) h
      have herase : ∀ p ∈ dictErase s.pending_confirmations tok,
          p.2.sent_count = p.2.retry_count + 1 ∧ p.2.retry_count ≤ 3 ∧
          p.2.max_retries = 3 := by
        intro p hp
        exact ih3 p (mem_dictErase _ _ p hp)
      rcases retry_arb_cases _ _ _ _ harb with ⟨hlt, hs2, hl⟩ | ⟨hge, hs2, hl⟩
      · rw [hs2]
        refine ⟨ih1, ?_, herase⟩
        intro c hc
        rcases List.mem_append.mp hc with h2 | h2
        · exact ih2 c h2
        · rw [List.mem_singleton] at h2
          rw [h2]
          have hlt3 : cmd.retry_count < 3 := by
            have := hlt
            rw [hcmd.2.2] at this
            exact this
          refine ⟨?_, by show cmd.retry_count + 1 ≤ 3; omega, hcmd.2.2⟩
          show cmd.sent_count = cmd.retry_count + 1
          exact hcmd.1
      · rw [hs2]
        exact ⟨ih1, ih2, herase⟩
    | watchdog_timeout tok cmd now l2 s3 hrun h ht harb =>
      have hcmd := ih3 (tok, cmd) h
      have herase : ∀ p ∈ dictErase s.pending_confirmations tok,
          p.2.sent_count = p.2.retry_count + 1 ∧ p.2.retry_count ≤ 3 ∧
          p.2.max_retries = 3 := by
        intro p hp
        exact ih3 p (mem_dictErase _ _ p hp)
      rcases retry_arb_cases _ _ _ _ harb with ⟨hlt, hs2, hl⟩ | ⟨hge, hs2, hl⟩
      · rw [hs2]
        refine ⟨ih1, ?_, herase⟩
        intro c hc
        rcases List.mem_append.mp hc with h2 | h2
        · exact ih2 c h2
        · rw [List.mem_singleton] at h2
          rw [h2]
          have hlt3 : cmd.retry_count < 3 := by
            have := hlt
            rw [hcmd.2.2] at this
            exact this
          refine ⟨?_, by show cmd.retry_count + 1 ≤ 3; omega, hcmd.2.2⟩
          show cmd.sent_count = cmd.retry_count + 1
          exact hcmd.1
      · rw [hs2]
        exact ⟨ih1, ih2, herase⟩

/-- Dict insertion preserves distinctness of the keys (an existing
binding of the key is replaced). -/
theorem nodup_dictInsert (m : List (Nat × QueuedCommand)) (k : Nat) (v : QueuedCommand)
    (h : (m.map Prod.fst).Nodup) : ((dictInsert m k v).map Prod.fst).Nodup := by
  rw [dictInsert, List.map_append, List.nodup_append]
  refine ⟨?_, List.nodup_singleton k, ?_⟩
  · exact List.Sublist.nodup (List.Sublist.map Prod.fst (List.filter_sublist m)) h
  · intro a ha hb
    have hb2 : a = k := by simpa using hb
    obtain ⟨p, hp, hpa⟩ := List.mem_map.mp ha
    have hne : (p.1 != k) = true := (List.mem_filter.mp hp).2
    rw [hpa, hb2] at hne
    simp at hne

/-- Dict deletion preserves distinctness of the keys. -/
theorem nodup_dictErase (m : List (Nat × QueuedCommand)) (k : Nat)
    (h : (m.map Prod.fst).Nodup) : ((dictErase m k).map Prod.fst).Nodup :=
  List.Sublist.nodup (List.Sublist.map Prod.fst (List.filter_sublist m)) h

/-! ### Claims C1, C2, C3, C4, C8 -/

/-- C2 (amended): in every reachable state of the command-dispatch
engine the confirmation tokens of the pending map are pairwise distinct —
each token maps to at most one queued command — but the map is not
bounded by one entry: the dispatcher inserts a new entry after each
rate-limited send whether or not the previous frame has been confirmed
(see the counterexample reaching two simultaneous entries). -/
theorem c2_pending_tokens_unique (s : HandlerState) (h : Reachable s) :
    (s.pending_confirmations.map Prod.fst).Nodup := by
  induction h with
  | init => exact List.nodup_nil
  | step s l s2 hr hstep ih =>
    cases hstep with
    | enqueue ct ga dt ps ms => exact ih
    | connect =>
      rw [(start_queue_system_queues { s with mqtt_api := true }).2.2]
      exact ih
    | start_sys =>
      rw [(start_queue_system_queues s).2.2]
      exact ih
    | stop_sys => exact ih
    | processor_begin h => exact ih
    | dispatch_retry_ok cmd rest tok t hrun hq => exact nodup_dictInsert _ _ _ ih
    | dispatch_fresh_ok cmd rest tok t hrun hrq hq => exact nodup_dictInsert _ _ _ ih
    | dispatch_retry_nocode cmd rest l2 s3 hrun hq harb =>
      rcases retry_arb_cases _ _ _ _ harb with ⟨_, hs2, _⟩ | ⟨_, hs2, _⟩ <;> rw [hs2] <;>
        exact ih
    | dispatch_fresh_nocode cmd rest l2 s3 hrun hrq hq harb =>
      rcases retry_arb_cases _ _ _ _ harb with ⟨_, hs2, _⟩ | ⟨_, hs2, _⟩ <;> rw [hs2] <;>
        exact ih
    | confirm_unknown tok h => exact ih
    | confirm_success tok cmd h => exact nodup_dictErase _ _ ih
    | confirm_fail tok cmd l2 s3 h harb =>
      rcases retry_arb_cases _ _ _ _ harb with ⟨_, hs2, _⟩ | ⟨_, hs2, _⟩ <;> rw [hs2] <;>
        exact nodup_dictErase _ _ ih
    | watchdog_timeout tok cmd now l2 s3 hrun h ht harb =>
      rcases retry_arb_cases _ _ _ _ harb with ⟨_, hs2, _⟩ | ⟨_, hs2, _⟩ <;> rw [hs2] <;>
        exact nodup_dictErase _ _ ih

/-- The connect step reaches `traceS1`. -/
theorem reach_traceS1 : Reachable traceS1 :=
  Reachable.step _ _ _ Reachable.init
    (show Step initialState .silent traceS1 from Step.connect initialState)

/-- The processor task's startup reaches `traceS2`. -/
theorem reach_traceS2 : Reachable traceS2 :=
  Reachable.step _ _ _ reach_traceS1
    (show Step traceS1 .silent traceS2 from Step.processor_begin traceS1 (by decide))

/-- Enqueuing `cmdA` reaches `traceS3`. -/
theorem reach_traceS3 : Reachable traceS3 :=
  Reachable.step _ _ _ reach_traceS2
    (show Step traceS2 .silent traceS3 from
      Step.enqueue traceS2 .on 10 .light none
        { state := charsOf "ON", brightness := 255, transition := 0,
          device_type := .light })

/-- Enqueuing `cmdB` reaches `traceS4`. -/
theorem reach_traceS4 : Reachable traceS4 :=
  Reachable.step _ _ _ reach_traceS3
    (show Step traceS3 .silent traceS4 from
      Step.enqueue traceS3 .off 11 .light none
        { state := charsOf "OFF", brightness := 0, transition := 0,
          device_type := .light })

/-- Dispatching `cmdA` reaches `traceS5`. -/
theorem reach_traceS5 : Reachable traceS5 :=
  Reachable.step _ _ _ reach_traceS4
    (show Step traceS4 .silent traceS5 from
      Step.dispatch_fresh_ok traceS4 cmdA [cmdB] 1 1000 rfl rfl rfl)

/-- Dispatching `cmdB` while `cmdA` is still unconfirmed reaches a state
with two pending confirmations. -/
theorem reach_twoPending : Reachable twoPendingState :=
  Reachable.step _ _ _ reach_traceS5
    (show Step traceS5 .silent twoPendingState from
      Step.dispatch_fresh_ok traceS5 cmdB [] 2 1100 rfl rfl rfl)

theorem projected_agrees_on (ga : Nat) (dt : DeviceType) (hbs : dt ≠ .binary_sensor) :
    projected_agrees (mkQueuedCommand .on ga dt none
      { state := charsOf "ON", brightness := 255, transition := 0, device_type := dt }) := by
  intro ms hms
  have hms2 :
      ms = { state := charsOf "ON", brightness := 255, transition := 0, device_type := dt } :=
    (Option.some.inj hms).symm
  rw [hms2]
  cases dt with
  | binary_sensor => exact absurd rfl hbs
  | switch => exact ⟨rfl, rfl⟩
  | light => exact ⟨rfl, rfl, rfl, rfl⟩
  | light_non_dimmable => exact ⟨rfl, rfl, rfl, rfl⟩
  | ignore => exact ⟨rfl, rfl, rfl, rfl⟩

theorem projected_agrees_off (ga : Nat) (dt : DeviceType) (hbs : dt ≠ .binary_sensor) :
    projected_agrees (mkQueuedCommand .off ga dt none
      { state := charsOf "OFF", brightness := 0, transition := 0, device_type := dt }) := by
  intro ms hms
  have hms2 :
      ms = { state := charsOf "OFF", brightness := 0, transition := 0, device_type := dt } :=
    (Option.some.inj hms).symm
  rw [hms2]
  cases dt with
  | binary_sensor => exact absurd rfl hbs
  | switch => exact ⟨rfl, rfl⟩
  | light => exact ⟨rfl, rfl, rfl, rfl⟩
  | light_non_dimmable => exact ⟨rfl, rfl, rfl, rfl⟩
  | ignore => exact ⟨rfl, rfl, rfl, rfl⟩

theorem projected_agrees_ramp (ga : Nat) (dt : DeviceType) (hbs : dt ≠ .binary_sensor)
    (duration level : Int) (hlvl : 0 ≤ level) :
    projected_agrees (mkQueuedCommand .ramp ga dt
      (some { duration := duration, level := level })
      { state := if level > 0 then charsOf "ON" else charsOf "OFF",
        brightness := level, transition := duration, device_type := dt }) := by
  intro ms hms
  have hms2 :
      ms = { state := if level > 0 then charsOf "ON" else charsOf "OFF", brightness := level, transition := duration, device_type := dt } :=
    (Option.some.inj hms).symm
  rw [hms2]
  have hstate : (if level = 0 then charsOf "OFF" else charsOf "ON")
      = (if level > 0 then charsOf "ON" else charsOf "OFF") := by
    by_cases h0 : level = 0
    · rw [if_pos h0, h0]
      rw [if_neg (by omega)]
    · rw [if_neg h0, if_pos (by omega)]
  cases dt with
  | binary_sensor => exact absurd rfl hbs
  | switch =>
    show state_topic_for_device ga .switch = state_topic_for_device ga .switch ∧
      (if level = 0 then charsOf "OFF" else charsOf "ON")
        = (if level > 0 then charsOf "ON" else charsOf "OFF")
    exact ⟨rfl, hstate⟩
  | light =>
    show state_topic_for_device ga .light = state_topic_for_device ga .light ∧
      (if level = 0 then charsOf "OFF" else charsOf "ON")
        = (if level > 0 then charsOf "ON" else charsOf "OFF") ∧
      level = level ∧ duration = duration
    exact ⟨rfl, hstate, rfl, rfl⟩
  | light_non_dimmable =>
    show state_topic_for_device ga .light_non_dimmable
        = state_topic_for_device ga .light_non_dimmable ∧
      (if level = 0 then charsOf "OFF" else charsOf "ON")
        = (if level > 0 then charsOf "ON" else charsOf "OFF") ∧
      level = level ∧ duration = duration
    exact ⟨rfl, hstate, rfl, rfl⟩
  | ignore =>
    show state_topic_for_device ga .ignore = state_topic_for_device ga .ignore ∧
      (if level = 0 then charsOf "OFF" else charsOf "ON")
        = (if level > 0 then charsOf "ON" else charsOf "OFF") ∧
      level = level ∧ duration = duration
    exact ⟨rfl, hstate, rfl, rfl⟩

theorem projected_agrees_ramp_down (ga : Nat) (dt : DeviceType)
    (hbs : dt ≠ .binary_sensor) (duration : Int) :
    projected_agrees (mkQueuedCommand .ramp ga dt
      (some { duration := duration, level := 0 })
      { state := charsOf "OFF", brightness := 0, transition := duration,
        device_type := dt }) := by
  intro ms hms
  have hms2 :
      ms = { state := charsOf "OFF", brightness := 0, transition := duration, device_type := dt } :=
    (Option.some.inj hms).symm
  rw [hms2]
  cases dt with
  | binary_sensor => exact absurd rfl hbs
  | switch =>
    show state_topic_for_device ga .switch = state_topic_for_device ga .switch ∧
      (if (0 : Int) = 0 then charsOf "OFF" else charsOf "ON") = charsOf "OFF"
    exact ⟨rfl, by rw [if_pos rfl]⟩
  | light =>
    show state_topic_for_device ga .light = state_topic_for_device ga .light ∧
      (if (0 : Int) = 0 then charsOf "OFF" else charsOf "ON") = charsOf "OFF" ∧
      (0 : Int) = 0 ∧ duration = duration
    exact ⟨rfl, by rw [if_pos rfl], rfl, rfl⟩
  | light_non_dimmable =>
    show state_topic_for_device ga .light_non_dimmable
        = state_topic_for_device ga .light_non_dimmable ∧
      (if (0 : Int) = 0 then charsOf "OFF" else charsOf "ON") = charsOf "OFF" ∧
      (0 : Int) = 0 ∧ duration = duration
    exact ⟨rfl, by rw [if_pos rfl], rfl, rfl⟩
  | ignore =>
    show state_topic_for_device ga .ignore = state_topic_for_device ga .ignore ∧
      (if (0 : Int) = 0 then charsOf "OFF" else charsOf "ON") = charsOf "OFF" ∧
      (0 : Int) = 0 ∧ duration = duration
    exact ⟨rfl, by rw [if_pos rfl], rfl, rfl⟩

theorem projected_agrees_ramp_gen (ga : Nat) (dt : DeviceType)
    (hbs : dt ≠ .binary_sensor) (duration level : Int) (st : List Char)
    (hlvl : 0 ≤ level)
    (hst : st = if level > 0 then charsOf "ON" else charsOf "OFF") :
    projected_agrees (mkQueuedCommand .ramp ga dt
      (some { duration := duration, level := level })
      { state := st, brightness := level, transition := duration,
        device_type := dt }) := by
  rw [hst]
  exact projected_agrees_ramp ga dt hbs duration level hlvl

theorem projected_agrees_enqueue (ga : Nat) (dt : DeviceType) (p : InPayload)
    (hbs : dt ≠ .binary_sensor) :
    projected_agrees (enqueue_command_of_payload ga dt p) := by
  simp only [enqueue_command_of_payload]
  split_ifs
  all_goals
    first
      | (exfalso; omega)
      | exact projected_agrees_on ga dt hbs
      | exact projected_agrees_off ga dt hbs
      | exact projected_agrees_ramp_down ga dt hbs _
      | (refine projected_agrees_ramp_gen ga dt hbs _ _ _ (by omega) ?_
         first
           | rw [if_pos (by omega)]
           | rw [if_neg (by omega)])

/-- For light device kinds the on-relay publishes JSON carrying the given
source address. -/
theorem lighting_on_json (src : Option Nat) (ga : Nat) (dt : DeviceType)
    (h1 : dt ≠ .binary_sensor) (h2 : dt ≠ .switch) :
    mqtt_lighting_group_on src ga dt = .json (state_topic_for_device ga dt)
      { state := charsOf "ON", brightness := 255, transition := 0,
        cbus_source_addr := src, color_mode := colorModeFor dt } 1 true := by
  rw [mqtt_lighting_group_on, if_neg h1, if_neg h2]

/-- For light device kinds the off-relay publishes JSON carrying the
given source address. -/
theorem lighting_off_json (src : Option Nat) (ga : Nat) (dt : DeviceType)
    (h1 : dt ≠ .binary_sensor) (h2 : dt ≠ .switch) :
    mqtt_lighting_group_off src ga dt = .json (state_topic_for_device ga dt)
      { state := charsOf "OFF", brightness := 0, transition := 0,
        cbus_source_addr := src, color_mode := colorModeFor dt } 1 true := by
  rw [mqtt_lighting_group_off, if_neg h1, if_neg h2]

/-- For light device kinds the ramp-relay publishes JSON carrying the
given source address. -/
theorem lighting_ramp_json (src : Option Nat) (ga : Nat) (duration level : Int)
    (dt : DeviceType) (h1 : dt ≠ .binary_sensor) (h2 : dt ≠ .switch) :
    mqtt_lighting_group_ramp src ga duration level dt
      = .json (state_topic_for_device ga dt)
      { state := if level = 0 then charsOf "OFF" else charsOf "ON",
        brightness := level, transition := duration,
        cbus_source_addr := src, color_mode := colorModeFor dt } 1 true := by
  rw [mqtt_lighting_group_ramp, if_neg h1, if_neg h2]

/-- C1: a state publish happens only on a confirmation with
`success=true`: every engine step that publishes a state is the
success branch of `on_confirmation` for a command in the pending map,
and it publishes that command's projected state (the payload rebuilt
from the command agrees with `mqtt_state_update` for every command the
MQTT ingress enqueues); a command that exhausts its attempts — whether
the failures come from negative confirmations, watchdog timeouts or
sends that raise or return no token, all of which share the same retry
arbitration — is dropped with an error logged at ERROR level and no
state publish, so the retained state topic keeps its prior value. -/
theorem c1_state_publish_only_on_success :
    (∀ (s : HandlerState) (l : StepLabel) (s2 : HandlerState), Step s l s2 →
      ∀ pub : MqttStatePublish, l = .published pub →
        ∃ tok cmd, (tok, cmd) ∈ s.pending_confirmations ∧ s.mqtt_api = true ∧
          cmd.mqtt_state_update.isSome = true ∧ pub = confirm_success_publish cmd ∧
          s2 = { s with
            pending_confirmations := dictErase s.pending_confirmations tok }) ∧
    (∀ (s : HandlerState) (cmd : QueuedCommand), cmd.max_retries ≤ cmd.retry_count →
      retry_arbitration_fail s cmd = (s, .errorLogged)) ∧
    (∀ (ga : Nat) (dt : DeviceType) (p : InPayload), dt ≠ .binary_sensor →
      projected_agrees (enqueue_command_of_payload ga dt p)) := by
  refine ⟨?_, retry_arb_exhaust, ?_⟩
  · intro s l s2 hstep pub hl
    cases hstep with
    | enqueue ct ga dt ps ms => exact StepLabel.noConfusion hl
    | connect => exact StepLabel.noConfusion hl
    | start_sys => exact StepLabel.noConfusion hl
    | stop_sys => exact StepLabel.noConfusion hl
    | processor_begin h => exact StepLabel.noConfusion hl
    | dispatch_retry_ok cmd rest tok t hrun hq => exact StepLabel.noConfusion hl
    | dispatch_fresh_ok cmd rest tok t hrun hrq hq => exact StepLabel.noConfusion hl
    | dispatch_retry_nocode cmd rest l2 s3 hrun hq harb =>
      rcases retry_arb_cases _ _ _ _ harb with ⟨_, _, hl2⟩ | ⟨_, _, hl2⟩ <;>
        (rw [hl2] at hl; exact StepLabel.noConfusion hl)
    | dispatch_fresh_nocode cmd rest l2 s3 hrun hrq hq harb =>
      rcases retry_arb_cases _ _ _ _ harb with ⟨_, _, hl2⟩ | ⟨_, _, hl2⟩ <;>
        (rw [hl2] at hl; exact StepLabel.noConfusion hl)
    | confirm_unknown tok h => exact StepLabel.noConfusion hl
    | confirm_success tok cmd h =>
      by_cases hc : s.mqtt_api = true ∧ cmd.mqtt_state_update.isSome = true
      · rw [successLabel, if_pos hc] at hl
        injection hl with hpub
        exact ⟨tok, cmd, h, hc.1, hc.2, hpub.symm, rfl⟩
      · rw [successLabel, if_neg hc] at hl
        exact StepLabel.noConfusion hl
    | confirm_fail tok cmd l2 s3 h harb =>
      rcases retry_arb_cases _ _ _ _ harb with ⟨_, _, hl2⟩ | ⟨_, _, hl2⟩ <;>
        (rw [hl2] at hl; exact StepLabel.noConfusion hl)
    | watchdog_timeout tok cmd now l2 s3 hrun h ht harb =>
      rcases retry_arb_cases _ _ _ _ harb with ⟨_, _, hl2⟩ | ⟨_, _, hl2⟩ <;>
        (rw [hl2] at hl; exact StepLabel.noConfusion hl)
  · intro ga dt p hbs
    exact projected_agrees_enqueue ga dt p hbs

/-- Witness for C1: a concrete successful confirmation step publishing
the rebuilt state, a concrete exhausted command being dropped with an
error, and the projected-state agreement at a concrete payload. -/
theorem c1_state_publish_only_on_success_witness :
    (∃ tok cmd, (tok, cmd) ∈ oneInFlightState.pending_confirmations ∧
      oneInFlightState.mqtt_api = true ∧ cmd.mqtt_state_update.isSome = true ∧
      confirm_success_publish (sentOk cmdA 7 500) = confirm_success_publish cmd ∧
      confirmedState = { oneInFlightState with
        pending_confirmations :=
          dictErase oneInFlightState.pending_confirmations tok }) ∧
    retry_arbitration_fail initialState cmdExhausted = (initialState, .errorLogged) ∧
    projected_agrees (enqueue_command_of_payload 5 .light
      { state := charsOf "ON", brightness := none, transition := none }) := by
  refine ⟨?_, ?_, ?_⟩
  · have hstep : Step oneInFlightState
        (.published (confirm_success_publish (sentOk cmdA 7 500))) confirmedState := by
      have h2 : successLabel oneInFlightState (sentOk cmdA 7 500)
          = .published (confirm_success_publish (sentOk cmdA 7 500)) := by
        rw [successLabel, if_pos ⟨rfl, rfl⟩]
      rw [← h2]
      exact Step.confirm_success oneInFlightState 7 (sentOk cmdA 7 500)
        (List.mem_singleton.mpr rfl)
    exact c1_state_publish_only_on_success.1 oneInFlightState _ confirmedState hstep
      (confirm_success_publish (sentOk cmdA 7 500)) rfl
  · exact c1_state_publish_only_on_success.2.1 initialState cmdExhausted (by decide)
  · exact c1_state_publish_only_on_success.2.2 5 .light _ (by decide)

/-- C2 counterexample: a reachable state of the engine whose pending map
holds two entries at once (two commands dispatched 100 ms apart, neither
yet confirmed), refuting the claim that the pending map contains at most
one entry in every reachable state. -/
theorem c2_two_pending_counterexample :
    Reachable twoPendingState ∧ twoPendingState.pending_confirmations.length = 2 :=
  ⟨reach_twoPending, rfl⟩

theorem c2_pending_tokens_unique_witness :
    (twoPendingState.pending_confirmations.map Prod.fst).Nodup :=
  c2_pending_tokens_unique twoPendingState reach_twoPending

/-- C3: over its whole lifecycle every queued command is sent at most 4
times: in every reachable state commands in the fresh queue and the
pending map have been sent at most 4 times, any command re-entering the
retry deque has been sent at most 3 times, and the shared retry
arbitration drops a command outright once `max_retries` (3 retries after
the first send, 4 sends total) is reached, so it never re-enters the
deque. -/
theorem c3_send_attempts_bounded (s : HandlerState) (h : Reachable s) :
    (∀ c ∈ s.command_queue, c.sent_count ≤ 4) ∧
    (∀ c ∈ s.retry_queue, c.sent_count ≤ 3) ∧
    (∀ p ∈ s.pending_confirmations, p.2.sent_count ≤ 4) ∧
    (∀ (s3 : HandlerState) (cmd : QueuedCommand), cmd.max_retries ≤ cmd.retry_count →
      retry_arbitration_fail s3 cmd = (s3, .errorLogged)) := by
  obtain ⟨i1, i2, i3⟩ := reachable_attempts_inv s h
  refine ⟨?_, ?_, ?_, retry_arb_exhaust⟩
  · intro c hc
    have := i1 c hc
    omega
  · intro c hc
    have := i2 c hc
    omega
  · intro p hp
    have := i3 p hp
    omega

/-- Witness for C3 at a reachable state with two pending commands and at
a concrete exhausted command. -/
theorem c3_send_attempts_bounded_witness :
    (∀ c ∈ twoPendingState.retry_queue, c.sent_count ≤ 3) ∧
    (∀ p ∈ twoPendingState.pending_confirmations, p.2.sent_count ≤ 4) ∧
    retry_arbitration_fail initialState cmdExhausted = (initialState, .errorLogged) :=
  ⟨(c3_send_attempts_bounded twoPendingState reach_twoPending).2.1,
   (c3_send_attempts_bounded twoPendingState reach_twoPending).2.2.1,
   (c3_send_attempts_bounded twoPendingState reach_twoPending).2.2.2
     initialState cmdExhausted (by decide)⟩

/-- C4 counterexample: stopping the queue system from a reachable state
with a queued command leaves the command queue non-empty (queues are not
cleared), and two successive `start_queue_system` calls made before the
processor task first runs both spawn tasks, so `start` is not idempotent
from the stopped state. -/
theorem c4_stop_counterexample :
    Reachable traceS3 ∧ (stop_queue_system traceS3).command_queue = [cmdA] ∧
    (stop_queue_system traceS3).command_queue ≠ [] ∧
    start_queue_system (start_queue_system initialState)
      ≠ start_queue_system initialState :=
  ⟨reach_traceS3, rfl, by decide, by decide⟩

/-- C4 (amended): `stop_queue_system` is idempotent, marks the system
stopped (cancelling the processor and watchdog tasks), and leaves the
fresh command queue, retry deque and pending confirmation map exactly as
they were — they are not cleared; `start_queue_system` returns
immediately (a no-op) once the queue system is running. -/
theorem c4_stop_idempotent_queues_kept :
    (∀ s : HandlerState, stop_queue_system (stop_queue_system s) = stop_queue_system s) ∧
    (∀ s : HandlerState, s.queue_running = true → start_queue_system s = s) ∧
    (∀ s : HandlerState,
      (stop_queue_system s).queue_running = false ∧
      (stop_queue_system s).command_queue = s.command_queue ∧
      (stop_queue_system s).retry_queue = s.retry_queue ∧
      (stop_queue_system s).pending_confirmations = s.pending_confirmations) := by
  refine ⟨fun s => rfl, fun s h => ?_, fun s => ⟨rfl, rfl, rfl, rfl⟩⟩
  rw [start_queue_system, if_pos h]

/-- Witness for C4 (amended) at concrete reachable states. -/
theorem c4_stop_idempotent_queues_kept_witness :
    start_queue_system traceS2 = traceS2 ∧
    (stop_queue_system traceS3).retry_queue = traceS3.retry_queue :=
  ⟨c4_stop_idempotent_queues_kept.2.1 traceS2 rfl,
   (c4_stop_idempotent_queues_kept.2.2 traceS3).2.2.1⟩

/-- C8: on a successful confirmation the outbound state payload is
rebuilt from the command's type and parameters via the same relay
helpers used for unsolicited bus events, with `cbus_source_addr` null,
while bus-event publishes carry the actual source address — so the two
are distinguishable; the stored `mqtt_state_update` is only tested for
truthiness: replacing its contents never changes the published payload,
a falsy value suppresses the publish, and a truthy value yields exactly
the rebuilt publish. -/
theorem c8_confirm_rebuild :
    (∀ cmd : QueuedCommand, cmd.device_type ≠ .binary_sensor →
      cmd.device_type ≠ .switch →
      ∃ t pl, confirm_success_publish cmd = .json t pl 1 true ∧
        pl.cbus_source_addr = none) ∧
    (∀ (src ga : Nat) (dt : DeviceType), dt ≠ .binary_sensor → dt ≠ .switch →
      ∃ t pl, mqtt_lighting_group_on (some src) ga dt = .json t pl 1 true ∧
        pl.cbus_source_addr = some src) ∧
    (∀ (cmd : QueuedCommand) (ms : Option MqttState),
      confirm_success_publish { cmd with mqtt_state_update := ms }
        = confirm_success_publish cmd) ∧
    (∀ (s : HandlerState) (cmd : QueuedCommand), cmd.mqtt_state_update = none →
      successLabel s cmd = .silent) ∧
    (∀ (s : HandlerState) (cmd : QueuedCommand) (ms : MqttState), s.mqtt_api = true →
      cmd.mqtt_state_update = some ms →
      successLabel s cmd = .published (confirm_success_publish cmd)) := by
  refine ⟨?_, ?_, ?_, ?_, ?_⟩
  · intro cmd h1 h2
    cases hct : cmd.command_type
    · refine ⟨state_topic_for_device cmd.group_addr cmd.device_type,
        { state := charsOf "ON", brightness := 255, transition := 0,
          cbus_source_addr := none, color_mode := colorModeFor cmd.device_type },
        ?_, rfl⟩
      simp only [confirm_success_publish, hct]
      exact lighting_on_json none cmd.group_addr cmd.device_type h1 h2
    · refine ⟨state_topic_for_device cmd.group_addr cmd.device_type,
        { state := charsOf "OFF", brightness := 0, transition := 0,
          cbus_source_addr := none, color_mode := colorModeFor cmd.device_type },
        ?_, rfl⟩
      simp only [confirm_success_publish, hct]
      exact lighting_off_json none cmd.group_addr cmd.device_type h1 h2
    · refine ⟨state_topic_for_device cmd.group_addr cmd.device_type,
        { state := if (cmd.params.getD { duration := 0, level := 0 }).level = 0
            then charsOf "OFF" else charsOf "ON",
          brightness := (cmd.params.getD { duration := 0, level := 0 }).level,
          transition := (cmd.params.getD { duration := 0, level := 0 }).duration,
          cbus_source_addr := none, color_mode := colorModeFor cmd.device_type },
        ?_, rfl⟩
      simp only [confirm_success_publish, hct]
      exact lighting_ramp_json none cmd.group_addr _ _ cmd.device_type h1 h2
  · intro src ga dt h1 h2
    exact ⟨state_topic_for_device ga dt,
      { state := charsOf "ON", brightness := 255, transition := 0,
        cbus_source_addr := some src, color_mode := colorModeFor dt },
      lighting_on_json (some src) ga dt h1 h2, rfl⟩
  · intro cmd ms
    rfl
  · intro s cmd h
    rw [successLabel, if_neg]
    rintro ⟨h1, h2⟩
    rw [h] at h2
    simp at h2
  · intro s cmd ms hapi hms
    rw [successLabel, if_pos ⟨hapi, by rw [hms]; rfl⟩]

/-- Witness for C8 at concrete commands and source addresses. -/
theorem c8_confirm_rebuild_witness :
    (∃ t pl, confirm_success_publish cmdA = .json t pl 1 true ∧
      pl.cbus_source_addr = none) ∧
    (∃ t pl, mqtt_lighting_group_on (some 17) 10 .light = .json t pl 1 true ∧
      pl.cbus_source_addr = some 17) ∧
    successLabel oneInFlightState (sentOk cmdA 7 500)
      = .published (confirm_success_publish (sentOk cmdA 7 500)) :=
  ⟨c8_confirm_rebuild.1 cmdA (by decide) (by decide),
   c8_confirm_rebuild.2.1 17 10 .light (by decide) (by decide),
   c8_confirm_rebuild.2.2.2.2 oneInFlightState (sentOk cmdA 7 500)
     { state := charsOf "ON", brightness := 255, transition := 0,
       device_type := .light } rfl rfl⟩
